import Mathlib

/-!
# Alchemyst-NODE: auth, profile and analytics routes

A shallow embedding of the route handlers of the repository over an explicit
document store: the data model shared by the three route files, then
`src/routes/auth.js`, `src/routes/profiles.js` and `src/routes/analytics.js`,
followed by the properties proved about them.

Modelling conventions.

* The four Mongoose collections are four lists of documents, each in natural
  (insertion) order.  `findOne` and `findById` return the first document of a
  collection that matches.
* A JSON body field that is missing is the empty string (both are falsy in
  `!field`).  A query parameter that may be absent is an `Option String`, so
  that destructuring defaults (`userType = 'all'`) apply to `none` only.
* Library calls whose code is not part of the repository (`toLowerCase`,
  `bcrypt.hash`, `bcrypt.compare`, `RegExp.test`, ObjectId casting) are the
  fields of `Lib`; every definition takes the library as a parameter.
* What the model schemas, which are not among the sources, decide about a
  hydrated document is the field of `Schema`.
* `page` and `limit` are the numeric values of the query parameters.
-/

namespace Alchemyst

/-! ## Data model -/

/-- The four collection accessors required at the top of every route file. -/
inductive Model where
  | Escort
  | Masseuse
  | OFModel
  | Spa
  deriving DecidableEq, Repr

/-- The `currentPackage` sub-document. -/
structure Package where
  packageType : Option String := none
  status : Option String := none
  deriving DecidableEq, Repr

/-- One entry of `analytics.interactionHistory`. -/
structure InteractionEntry where
  type : String
  timestamp : Nat
  deriving DecidableEq, Repr

/-- The `analytics` sub-document; a counter that is absent counts as `0`. -/
structure Analytics where
  views : Nat := 0
  lastViewed : Option Nat := none
  interactions : Nat := 0
  phone_copys : Nat := 0
  calls : Nat := 0
  whatsapps : Nat := 0
  profile_views : Nat := 0
  messages : Nat := 0
  interactionHistory : List InteractionEntry := []
  deriving DecidableEq, Repr

/-- The `location` sub-document. -/
structure Location where
  county : Option String := none
  location : Option String := none
  area : Option String := none
  deriving DecidableEq, Repr

/-- A stored document of any of the four collections.  `profile` and
`business` stand for nested objects whose content the routes never inspect. -/
structure Profile where
  _id : String
  username : String
  email : String
  password : String
  userType : String := ""
  isActive : Bool := false
  isDeactivated : Bool := false
  currentPackage : Option Package := none
  location : Location := {}
  gender : Option String := none
  bodyType : Option String := none
  breastSize : Option String := none
  isVerified : Option Bool := none
  createdAt : Nat := 0
  profile : Option String := none
  business : Option String := none
  analytics : Option Analytics := none
  deriving DecidableEq, Repr

/-- The database: one list of documents per collection. -/
structure Store where
  escorts : List Profile := []
  masseuses : List Profile := []
  ofModels : List Profile := []
  spas : List Profile := []
  deriving DecidableEq, Repr

/-- The documents of the collection behind an accessor. -/
def Store.coll (s : Store) : Model → List Profile
  | .Escort => s.escorts
  | .Masseuse => s.masseuses
  | .OFModel => s.ofModels
  | .Spa => s.spas

/-- Saving a new document appends it to its collection. -/
def Store.save (s : Store) (m : Model) (p : Profile) : Store :=
  match m with
  | .Escort => { s with escorts := s.escorts ++ [p] }
  | .Masseuse => { s with masseuses := s.masseuses ++ [p] }
  | .OFModel => { s with ofModels := s.ofModels ++ [p] }
  | .Spa => { s with spas := s.spas ++ [p] }

/-- Every document of the database, collections in the fixed order. -/
def Store.all (s : Store) : List Profile :=
  s.escorts ++ s.masseuses ++ s.ofModels ++ s.spas

/-- Library functions the routes call. -/
structure Lib where
  /-- The method `String.prototype.toLowerCase`. -/
  toLowerCase : String → String
  /-- The call `bcrypt.hash(password, 12)`. -/
  bcryptHash : String → String
  /-- The call `bcrypt.compare(password, hash)`. -/
  bcryptCompare : String → String → Bool
  /-- The call `new RegExp(pattern, 'i')` matched against a field value. -/
  regexTest : String → String → Bool
  /-- Whether a string casts to an ObjectId (otherwise `findById` throws a
  `CastError`). -/
  castObjectId : String → Bool

/-- What the model schemas, which are not among the sources, decide about a
hydrated document. -/
structure Schema where
  /-- The getter `profile.analytics` of a hydrated document: with a
  nested-path schema it yields an object for every document, with a
  sub-document schema it yields what the document stores, if anything. -/
  analyticsOf : Profile → Option Analytics

/-! ## auth.js -/

namespace Auth

/-- The constant `VALID_USER_TYPES` (auth.js:13). -/
def VALID_USER_TYPES : List String := ["escort", "masseuse", "of-model", "spa"]

/-- The function `getModelByType` (auth.js:16). -/
def getModelByType (userType : String) : Option Model :=
  match userType with
  | "escort" => some Model.Escort
  | "masseuse" => some Model.Masseuse
  | "of-model" => some Model.OFModel
  | "spa" => some Model.Spa
  | _ => none

/-- The payload signed by `generateToken` (auth.js:32); the signature and the
30 day expiry are not represented. -/
structure Token where
  userId : String
  userType : String
  deriving DecidableEq, Repr

/-- The function `generateToken` (auth.js:32). -/
def generateToken (userId userType : String) : Token :=
  { userId := userId, userType := userType }

/-- The `data` object of the register and login responses. -/
structure UserData where
  id : String
  username : String
  email : String
  userType : String
  isActive : Bool
  createdAt : Nat
  profile : Option String := none
  isVerified : Option Bool := none
  business : Option String := none
  deriving DecidableEq, Repr

/-- A response of the auth routes: HTTP status and JSON body. -/
structure AuthResponse where
  status : Nat
  success : Bool
  message : String
  token : Option Token := none
  data : Option UserData := none
  deriving DecidableEq, Repr

/-- The body of `POST /auth/login`. -/
structure LoginRequest where
  email : String
  password : String
  deriving DecidableEq, Repr

/-- The query `Model.findOne({ email })`. -/
def findOneByEmail (s : Store) (m : Model) (email : String) : Option Profile :=
  (s.coll m).find? (fun p => p.email = email)

/-- The loop of auth.js:153 from index `i`: the first non-null lookup result
and the tag `VALID_USER_TYPES[i]` of its position. -/
def firstUserFrom : Nat → List (Option Profile) → Option (Profile × String)
  | _, [] => none
  | i, some u :: _ => some (u, VALID_USER_TYPES.getD i "")
  | i, none :: rest => firstUserFrom (i + 1) rest

/-- The loop of auth.js:150-159. -/
def firstUser (users : List (Option Profile)) : Option (Profile × String) :=
  firstUserFrom 0 users

/-- The four lookups of auth.js:142, in the order of the array literal. -/
def loginLookups (L : Lib) (s : Store) (email : String) : List (Option Profile) :=
  [ findOneByEmail s Model.Escort (L.toLowerCase email),
    findOneByEmail s Model.Masseuse (L.toLowerCase email),
    findOneByEmail s Model.OFModel (L.toLowerCase email),
    findOneByEmail s Model.Spa (L.toLowerCase email) ]

/-- The array `Promise.all` resolves to once every lookup has settled:
position `i` holds the value of lookup `i`, whatever the order `settled` in
which the lookups completed. -/
def promiseAll (settled : List (Sigma fun _ : Nat => Option Profile)) :
    List (Option Profile) :=
  (List.range 4).map (fun i => (settled.dlookup i).join)

/-- The empty object `{}` used as fallback for `profile`. -/
def emptyObject : String := "\x7b\x7d"

/-- The success response of login (auth.js:183-214). -/
def loginSuccess (user : Profile) (userType : String) : AuthResponse :=
  let userData : UserData :=
    { id := user._id
      username := user.username
      email := user.email
      userType := userType
      isActive := user.isActive
      createdAt := user.createdAt
      profile := some ((user.profile <|> user.business).getD emptyObject) }
  let userData : UserData :=
    if userType = "escort" ∨ userType = "masseuse" ∨ userType = "spa" then
      { userData with isVerified := some (user.isVerified.getD false) }
    else if userType = "of-model" then
      { userData with isVerified := some (user.isVerified.getD false) }
    else userData
  let userData : UserData :=
    if userType = "spa" then
      { userData with business := some (user.business.getD emptyObject) }
    else userData
  { status := 200
    success := true
    message := "Login successful"
    token := some (generateToken user._id userType)
    data := some userData }

/-- The handler of `POST /auth/login` (auth.js:131-215). -/
def login (L : Lib) (s : Store) (req : LoginRequest) : AuthResponse :=
  if req.email = "" ∨ req.password = "" then
    { status := 400, success := false, message := "Email and password are required" }
  else
    match firstUser (loginLookups L s req.email) with
    | none =>
      { status := 401, success := false, message := "Invalid email or password" }
    | some (user, userType) =>
      if user.isDeactivated then
        { status := 401, success := false,
          message := "Account is deactivated. Please contact support." }
      else if !L.bcryptCompare req.password user.password then
        { status := 401, success := false, message := "Invalid email or password" }
      else loginSuccess user userType

/-- The body of `POST /auth/register`. -/
structure RegisterRequest where
  username : String
  email : String
  password : String
  userType : String
  deriving DecidableEq, Repr

/-- The query `Model.findOne({ $or: [{ email }, { username }] })`. -/
def findOneByEmailOrUsername (s : Store) (m : Model) (email username : String) :
    Option Profile :=
  (s.coll m).find? (fun p => p.email = email ∨ p.username = username)

/-- The four existence probes of auth.js:64-69. -/
def existingUsers (L : Lib) (s : Store) (req : RegisterRequest) : List (Option Profile) :=
  [ findOneByEmailOrUsername s Model.Escort (L.toLowerCase req.email) (L.toLowerCase req.username),
    findOneByEmailOrUsername s Model.Masseuse (L.toLowerCase req.email) (L.toLowerCase req.username),
    findOneByEmailOrUsername s Model.OFModel (L.toLowerCase req.email) (L.toLowerCase req.username),
    findOneByEmailOrUsername s Model.Spa (L.toLowerCase req.email) (L.toLowerCase req.username) ]

/-- The expression `userType.charAt(0).toUpperCase() + userType.slice(1)`. -/
def capitalizeFirst (t : String) : String :=
  match t.data with
  | [] => ""
  | c :: cs => String.mk (c.toUpper :: cs)

/-- The document built at auth.js:93-98.  `blank` is what the model
constructor yields before the four given fields are set: the generated `_id`,
the schema defaults and the timestamps. -/
def newUser (L : Lib) (blank : Profile) (req : RegisterRequest) : Profile :=
  { blank with
    username := L.toLowerCase req.username
    email := L.toLowerCase req.email
    password := L.bcryptHash req.password
    userType := req.userType }

/-- The success response of register (auth.js:102-127). -/
def registerSuccess (user : Profile) (userType : String) : AuthResponse :=
  let userData : UserData :=
    { id := user._id
      username := user.username
      email := user.email
      userType := userType
      isActive := user.isActive
      createdAt := user.createdAt }
  let userData : UserData :=
    if userType = "escort" ∨ userType = "masseuse" ∨ userType = "spa" then
      { userData with isVerified := some (user.isVerified.getD false) }
    else if userType = "of-model" then
      { userData with isVerified := some (user.isVerified.getD false) }
    else userData
  { status := 201
    success := true
    message := capitalizeFirst userType ++ " registered successfully"
    token := some (generateToken user._id userType)
    data := some userData }

/-- The handler of `POST /auth/register` (auth.js:44-128): the response and
the database after the request. -/
def register (L : Lib) (blank : Profile) (s : Store) (req : RegisterRequest) :
    AuthResponse × Store :=
  if req.username = "" ∨ req.email = "" ∨ req.password = "" ∨ req.userType = "" then
    ({ status := 400, success := false,
       message := "All fields are required: username, email, password, userType" }, s)
  else if ¬ req.userType ∈ VALID_USER_TYPES then
    ({ status := 400, success := false,
       message := "Invalid user type. Must be one of: " ++ ", ".intercalate VALID_USER_TYPES }, s)
  else if (existingUsers L s req).any (fun user => user.isSome) then
    ({ status := 409, success := false,
       message := "User with this email or username already exists. Please Login." }, s)
  else
    match getModelByType req.userType with
    | none => ({ status := 400, success := false, message := "Invalid user type" }, s)
    | some m =>
      let user := newUser L blank req
      (registerSuccess user req.userType, s.save m user)

/-- The database after a sequence of register requests, each with the blank
document its constructor call yields. -/
def registerAll (L : Lib) (s : Store) : List (Profile × RegisterRequest) → Store
  | [] => s
  | (blank, req) :: rest => registerAll L (register L blank s req).2 rest

end Auth

/-! ## profiles.js -/

namespace Profiles

/-- The function `getModelByType` (profiles.js:11); the console output is not
represented. -/
def getModelByType (userType : String) : Option Model :=
  match userType with
  | "escort" => some Model.Escort
  | "masseuse" => some Model.Masseuse
  | "of-model" => some Model.OFModel
  | "spa" => some Model.Spa
  | _ => none

/-- The query string of the listing routes.  `page` and `limit` are the
numbers the strings denote; the other parameters are absent (`none`) or a
string. -/
structure Query where
  page : Nat := 1
  limit : Nat := 20
  county : Option String := none
  userType : Option String := none
  gender : Option String := none
  bodyType : Option String := none
  breastSize : Option String := none
  location : Option String := none
  area : Option String := none
  deriving DecidableEq, Repr

/-- Truthiness of an optional string: present and not empty. -/
def truthy : Option String → Bool
  | some v => v ≠ ""
  | none => false

/-- A filter document: the two equality conditions and, per field, the regex
pattern when the key was added. -/
structure Filter where
  isActive : Bool := true
  status : String := "active"
  county : Option String := none
  location : Option String := none
  area : Option String := none
  gender : Option String := none
  bodyType : Option String := none
  breastSize : Option String := none
  deriving DecidableEq, Repr

/-- A regex condition on a field: no condition when the key is not in the
filter, otherwise the field must be present and match. -/
def regexCond (L : Lib) (pattern : Option String) (field : Option String) : Bool :=
  match pattern with
  | none => true
  | some pat =>
    match field with
    | some v => L.regexTest pat v
    | none => false

/-- Whether a document matches a filter document. -/
def Filter.test (L : Lib) (f : Filter) (p : Profile) : Bool :=
  (p.isActive == f.isActive)
    && (p.currentPackage.bind (fun c => c.status) == some f.status)
    && regexCond L f.county p.location.county
    && regexCond L f.location p.location.location
    && regexCond L f.area p.location.area
    && regexCond L f.gender p.gender
    && regexCond L f.bodyType p.bodyType
    && regexCond L f.breastSize p.breastSize

/-- The object `baseFilter` of profiles.js:47-68. -/
def baseFilter (q : Query) : Filter :=
  { county := if truthy q.county then q.county else none
    location := if truthy q.location then q.location else none
    area := if truthy q.area then q.area else none }

/-- The object `modelFilter` of profiles.js:101-117 for a collection tag. -/
def modelFilter (q : Query) (type : String) : Filter :=
  let f := baseFilter q
  let f := if q.gender.getD "all" ≠ "all" ∧ type ≠ "spa" then
    { f with gender := some (q.gender.getD "all") } else f
  let f := if q.bodyType.getD "all" ≠ "all" ∧ type ≠ "spa" then
    { f with bodyType := some (q.bodyType.getD "all") } else f
  if q.breastSize.getD "all" ≠ "all" ∧ type ≠ "spa" then
    { f with breastSize := some (q.breastSize.getD "all") } else f

/-- The array assigned to `modelsToSearch` when `userType === 'all'`. -/
def allModels : List (Model × String) :=
  [ (Model.Escort, "escort"), (Model.Masseuse, "masseuse"),
    (Model.OFModel, "of-model"), (Model.Spa, "spa") ]

/-- The array `modelsToSearch` of profiles.js:71-92 and 210-225: `none` when
the tag is neither `all` nor a known type. -/
def modelsToSearch (userType : String) : Option (List (Model × String)) :=
  if userType = "all" then some allModels
  else
    match getModelByType userType with
    | some m => some [(m, userType)]
    | none => none

/-- Binary string comparison of the database (default collation): the first
differing character decides, by code point; a proper prefix is smaller. -/
def strLt : List Char → List Char → Bool
  | [], [] => false
  | [], _ :: _ => true
  | _ :: _, [] => false
  | a :: as, b :: bs =>
    if a.toNat < b.toNat then true
    else if b.toNat < a.toNat then false
    else strLt as bs

/-- Order of the database on the sort key `currentPackage.packageType`: a
missing value is below every string. -/
def keyLt : Option String → Option String → Bool
  | none, none => false
  | none, some _ => true
  | some _, none => false
  | some a, some b => strLt a.data b.data

/-- The sort key `currentPackage.packageType` of a document. -/
def packageTypeOf (p : Profile) : Option String :=
  p.currentPackage.bind (fun c => c.packageType)

/-- The sort document `{ 'currentPackage.packageType': -1, createdAt: -1 }`:
whether `a` may stand before `b`. -/
def dbBefore (a b : Profile) : Bool :=
  keyLt (packageTypeOf b) (packageTypeOf a)
    || (packageTypeOf a == packageTypeOf b && decide (b.createdAt ≤ a.createdAt))

/-- The cursor method `.sort({ 'currentPackage.packageType': -1, createdAt: -1 })`;
documents equal on both keys keep their natural order. -/
def dbSort (l : List Profile) : List Profile :=
  l.insertionSort (fun a b => dbBefore a b = true)

/-- The cursor method `.limit(n)`: `0` means no limit. -/
def applyLimit (n : Nat) (l : List Profile) : List Profile :=
  if n = 0 then l else l.take n

/-- The projection `-password -email -paymentHistory -processedTransactions`. -/
def selectListing (p : Profile) : Profile :=
  { p with password := "", email := "" }

/-- The query of profiles.js:121-130 (and 241-249, 364-372) on one collection. -/
def findPage (L : Lib) (s : Store) (m : Model) (f : Filter) (skip limit : Nat) :
    List Profile :=
  (applyLimit limit ((dbSort ((s.coll m).filter (f.test L))).drop skip)).map selectListing

/-- The query `model.countDocuments(filter)`. -/
def countDocuments (L : Lib) (s : Store) (m : Model) (f : Filter) : Nat :=
  ((s.coll m).filter (f.test L)).length

/-- The mapping `profile => ({ ...profile, userType: type })`. -/
def typedProfiles (type : String) (profiles : List Profile) : List Profile :=
  profiles.map (fun p => { p with userType := type })

/-- The property names every object literal inherits from `Object.prototype`. -/
def inheritedKeys : List String :=
  [ "constructor", "toString", "toLocaleString", "valueOf", "hasOwnProperty",
    "isPrototypeOf", "propertyIsEnumerable", "__proto__", "__defineGetter__",
    "__defineSetter__", "__lookupGetter__", "__lookupSetter__" ]

/-- The value of `packagePriority[key] || 0` on the object literal
`{ elite: 3, premium: 2, basic: 1, null: 0 }`: `some n` when it is the number
`n`, `none` when it is not a number.  An absent key reads the property
`undefined`, which the object does not have; a name inherited from
`Object.prototype` reads a function or an object, which is truthy, so `|| 0`
keeps it. -/
def packagePriority (key : Option String) : Option Nat :=
  match key with
  | some "elite" => some 3
  | some "premium" => some 2
  | some "basic" => some 1
  | some k => if k ∈ inheritedKeys then none else some 0
  | none => some 0

/-- The comparator passed to `allProfiles.sort`: `bPriority - aPriority`,
which is `NaN` (`none`) when one of the two is not a number. -/
def comparePriority (a b : Profile) : Option Int :=
  match packagePriority (packageTypeOf b), packagePriority (packageTypeOf a) with
  | some bPriority, some aPriority => some ((bPriority : Int) - (aPriority : Int))
  | _, _ => none

/-- The method `Array.prototype.sort(compare)`: a stable sort, `a` stays
before `b` when `compare(a, b) <= 0`, and a result `NaN` counts as `0`.  For
a comparator that is not consistent the language leaves the order to the
implementation; the model then is the stable insertion order. -/
def arraySort (compare : Profile → Profile → Option Int) (l : List Profile) : List Profile :=
  l.insertionSort (fun a b => (compare a b).getD 0 ≤ 0)

/-- The `pagination` object of a listing response. -/
structure Pagination where
  page : Nat
  limit : Nat
  total : Nat
  hasMore : Bool
  deriving DecidableEq, Repr

/-- The `location` object echoed by the location routes. -/
structure LocationEcho where
  county : String
  location : Option String := none
  area : Option String := none
  deriving DecidableEq, Repr

/-- A response of the listing routes: HTTP status and JSON body. -/
structure ListResponse where
  status : Nat
  success : Bool
  message : Option String := none
  profiles : Option (List Profile) := none
  location : Option LocationEcho := none
  pagination : Option Pagination := none
  deriving DecidableEq, Repr

/-- The value `allProfiles` of `GET /profiles/` after the loop of
profiles.js:99-141 and before the sort, for a given `modelsToSearch`. -/
def fetchAll (L : Lib) (s : Store) (q : Query) (models : List (Model × String)) :
    List Profile :=
  (models.map (fun mt =>
    typedProfiles mt.2
      (findPage L s mt.1 (modelFilter q mt.2) ((q.page - 1) * q.limit) q.limit))).flatten

/-- The handler of `GET /profiles/` (profiles.js:29-184): the response.  A
negative `skip` (page 0) is rejected by the database and caught as a 500.  The
view increments of profiles.js:157 do not enter the response. -/
def list (L : Lib) (s : Store) (q : Query) : ListResponse :=
  match modelsToSearch (q.userType.getD "all") with
  | none => { status := 400, success := false, message := some "Invalid user type" }
  | some models =>
    if q.page = 0 ∧ 0 < q.limit ∧ models ≠ [] then
      { status := 500, success := false, message := some "Failed to fetch profiles" }
    else
      let allProfiles := arraySort comparePriority (fetchAll L s q models)
      { status := 200
        success := true
        profiles := some allProfiles
        pagination := some
          { page := q.page
            limit := q.limit
            total := allProfiles.length
            hasMore := allProfiles.length == q.limit } }

/-- The object `filter` of profiles.js:197-208 (`location = none`) and of
profiles.js:319-331 (`location = some _`). -/
def locationFilter (county : String) (location : Option String) (area : Option String) :
    Filter :=
  { county := some county
    location := location
    area := if truthy area ∧ area ≠ some "all" then area else none }

/-- The value `allProfiles` of the location routes before the sort. -/
def fetchAllLocation (L : Lib) (s : Store) (f : Filter) (q : Query)
    (models : List (Model × String)) : List Profile :=
  (models.map (fun mt =>
    typedProfiles mt.2 (findPage L s mt.1 f ((q.page - 1) * q.limit) q.limit))).flatten

/-- The value `totalCount` of the location routes after the loop. -/
def totalCount (L : Lib) (s : Store) (f : Filter) (models : List (Model × String)) : Nat :=
  (models.map (fun mt => countDocuments L s mt.1 f)).sum

/-- The common body of the two location handlers (profiles.js:187-306 and
309-430).  An unknown `userType` leaves `modelsToSearch` empty. -/
def listLocation (L : Lib) (s : Store) (county : String) (location : Option String)
    (q : Query) : ListResponse :=
  let filter := locationFilter county location q.area
  let models := (modelsToSearch (q.userType.getD "all")).getD []
  if q.page = 0 ∧ 0 < q.limit ∧ models ≠ [] then
    { status := 500, success := false, message := some "Failed to fetch location profiles" }
  else
    let skip := (q.page - 1) * q.limit
    let allProfiles := arraySort comparePriority (fetchAllLocation L s filter q models)
    let total := totalCount L s filter models
    { status := 200
      success := true
      profiles := some allProfiles
      location := some
        { county := county
          location := location
          area := if truthy q.area ∧ q.area ≠ some "all" then q.area else none }
      pagination := some
        { page := q.page
          limit := q.limit
          total := total
          hasMore := decide (skip + allProfiles.length < total) } }

/-- The handler of `GET /profiles/location/:county`. -/
def listByCounty (L : Lib) (s : Store) (county : String) (q : Query) : ListResponse :=
  listLocation L s county none q

/-- The handler of `GET /profiles/location/:county/:location`. -/
def listByCountyLocation (L : Lib) (s : Store) (county location : String) (q : Query) :
    ListResponse :=
  listLocation L s county (some location) q

/-- A response of `GET /profiles/:id`. -/
structure DetailResponse where
  status : Nat
  success : Bool
  message : Option String := none
  data : Option Profile := none
  deriving DecidableEq, Repr

/-- The query `model.findById(id)` on a castable id. -/
def findById (s : Store) (m : Model) (id : String) : Option Profile :=
  (s.coll m).find? (fun p => p._id = id)

/-- The loop of profiles.js:451-463: the first collection holding the id,
with its tag. -/
def findAcross (s : Store) (id : String) : List (Model × String) → Option (Profile × String)
  | [] => none
  | (m, type) :: rest =>
    match findById s m id with
    | some p => some (p, type)
    | none => findAcross s id rest

/-- The projection `-password -paymentHistory -processedTransactions`. -/
def selectDetail (p : Profile) : Profile :=
  { p with password := "" }

/-- The handler of `GET /profiles/:id` (profiles.js:433-511): the response.
An id that does not cast makes the first `findById` throw a `CastError`. -/
def getById (L : Lib) (s : Store) (id : String) : DetailResponse :=
  if !L.castObjectId id then
    { status := 400, success := false, message := some "Invalid profile ID" }
  else
    match findAcross s id allModels with
    | none => { status := 404, success := false, message := some "Profile not found" }
    | some (found, userType) =>
      let profile := selectDetail found
      if !profile.isActive ∨ profile.currentPackage.bind (fun c => c.status) ≠ some "active" then
        { status := 404, success := false, message := some "Profile not available" }
      else
        { status := 200, success := true, data := some { profile with userType := userType } }

end Profiles

/-! ## analytics.js -/

namespace Analytics

/-- The function `getModelByType` (analytics.js:11). -/
def getModelByType (userType : String) : Option Model :=
  match userType with
  | "escort" => some Model.Escort
  | "masseuse" => some Model.Masseuse
  | "of-model" => some Model.OFModel
  | "spa" => some Model.Spa
  | _ => none

/-- The array `validInteractions` (analytics.js:37). -/
def validInteractions : List String :=
  ["phone_copy", "call", "whatsapp", "profile_view", "message"]

/-- The array `models` of analytics.js:48-53 and 109-114. -/
def models : List (Model × String) :=
  [ (Model.Escort, "escort"), (Model.Masseuse, "masseuse"),
    (Model.OFModel, "of-model"), (Model.Spa, "spa") ]

/-- The body of `POST /analytics/interaction`. -/
structure InteractionRequest where
  profileId : String
  interactionType : String
  deriving DecidableEq, Repr

/-- A response of `POST /analytics/interaction`. -/
structure InteractionResponse where
  status : Nat
  success : Bool
  message : String
  deriving DecidableEq, Repr

/-- The query `model.findById(profileId)` on a castable id. -/
def findById (s : Store) (m : Model) (id : String) : Option Profile :=
  (s.coll m).find? (fun p => p._id = id)

/-- The operator `$inc` on the computed key `analytics.<interactionType>s`,
for the interaction types that pass the validation of analytics.js:39. -/
def incTypeCounter (interactionType : String) (a : Analytics) : Analytics :=
  match interactionType with
  | "phone_copy" => { a with phone_copys := a.phone_copys + 1 }
  | "call" => { a with calls := a.calls + 1 }
  | "whatsapp" => { a with whatsapps := a.whatsapps + 1 }
  | "profile_view" => { a with profile_views := a.profile_views + 1 }
  | "message" => { a with messages := a.messages + 1 }
  | _ => a

/-- The update document of analytics.js:64-75 applied to an `analytics`
sub-document: both counters incremented, one history entry pushed. -/
def applyInteraction (interactionType : String) (now : Nat) (a : Analytics) : Analytics :=
  let a := { a with interactions := a.interactions + 1 }
  let a := incTypeCounter interactionType a
  { a with
    interactionHistory :=
      a.interactionHistory ++ [{ type := interactionType, timestamp := now }] }

/-- The update of analytics.js:64-75 applied to a document; an absent
`analytics` sub-document is created by the operators. -/
def updateProfile (interactionType : String) (now : Nat) (p : Profile) : Profile :=
  { p with analytics := some (applyInteraction interactionType now (p.analytics.getD {})) }

/-- The effect of `findByIdAndUpdate(id, update)` on a collection: the first
document with that id is updated, the others are left as they are. -/
def updateFirst (id : String) (f : Profile → Profile) : List Profile → List Profile
  | [] => []
  | p :: rest => if p._id = id then f p :: rest else p :: updateFirst id f rest

/-- The database with one collection replaced. -/
def setColl (s : Store) (m : Model) (l : List Profile) : Store :=
  match m with
  | .Escort => { s with escorts := l }
  | .Masseuse => { s with masseuses := l }
  | .OFModel => { s with ofModels := l }
  | .Spa => { s with spas := l }

/-- The loop of analytics.js:58-80: the database after the update of the first
collection that holds the id, or `none` when `profileFound` stays false. -/
def trackAcross (s : Store) (id interactionType : String) (now : Nat) :
    List (Model × String) → Option Store
  | [] => none
  | (m, _) :: rest =>
    match findById s m id with
    | some _ => some (setColl s m (updateFirst id (updateProfile interactionType now) (s.coll m)))
    | none => trackAcross s id interactionType now rest

/-- The handler of `POST /analytics/interaction` (analytics.js:27-101): the
response and the database after the request.  `now` is the value of
`new Date()`; an id that does not cast makes `findById` throw, which the
handler catches as a 500. -/
def trackInteraction (L : Lib) (now : Nat) (s : Store) (req : InteractionRequest) :
    InteractionResponse × Store :=
  if req.profileId = "" ∨ req.interactionType = "" then
    ({ status := 400, success := false,
       message := "Profile ID and interaction type are required" }, s)
  else if ¬ req.interactionType ∈ validInteractions then
    ({ status := 400, success := false, message := "Invalid interaction type" }, s)
  else if !L.castObjectId req.profileId then
    ({ status := 500, success := false, message := "Failed to track interaction" }, s)
  else
    match trackAcross s req.profileId req.interactionType now models with
    | none => ({ status := 404, success := false, message := "Profile not found" }, s)
    | some s' =>
      ({ status := 200, success := true, message := "Interaction tracked successfully" }, s')

/-- The database after successive interaction requests of one type on one
profile, one per timestamp. -/
def trackRepeated (L : Lib) (s : Store) (req : InteractionRequest) : List Nat → Store
  | [] => s
  | now :: later => trackRepeated L (trackInteraction L now s req).2 req later

/-- A response of `GET /analytics/profile/:profileId`. -/
structure AnalyticsResponse where
  status : Nat
  success : Bool
  message : Option String := none
  data : Option Analytics := none
  deriving DecidableEq, Repr

/-- The loop of analytics.js:118-124 up to its `break`: the first document
found, with the projection `analytics username`. -/
def firstProfile (s : Store) (id : String) : List (Model × String) → Option Profile
  | [] => none
  | (m, _) :: rest =>
    match findById s m id with
    | some p => some p
    | none => firstProfile s id rest

/-- The handler of `GET /analytics/profile/:profileId` (analytics.js:104-145):
the response.  The document found is hydrated, so `profile.analytics` is the
getter of the schema. -/
def getProfileAnalytics (L : Lib) (S : Schema) (s : Store) (profileId : String) :
    AnalyticsResponse :=
  if !L.castObjectId profileId then
    { status := 500, success := false, message := some "Failed to fetch analytics" }
  else
    match (firstProfile s profileId models).bind (fun profile => S.analyticsOf profile) with
    | none => { status := 404, success := false, message := some "Analytics not found" }
    | some analytics => { status := 200, success := true, data := some analytics }

end Analytics

/-! ## getModelByType on any argument

The three copies of `getModelByType` as functions of any argument a caller can
pass: a string, or `undefined` (`none`).  The `switch` compares with `===`, so
only the four string literals select an accessor. -/

/-- The function `getModelByType` of auth.js:16 on a string or `undefined`. -/
def Auth.getModelByTypeOf (userType : Option String) : Option Model :=
  match userType with
  | some "escort" => some Model.Escort
  | some "masseuse" => some Model.Masseuse
  | some "of-model" => some Model.OFModel
  | some "spa" => some Model.Spa
  | _ => none

/-- The function `getModelByType` of profiles.js:11 on a string or `undefined`. -/
def Profiles.getModelByTypeOf (userType : Option String) : Option Model :=
  match userType with
  | some "escort" => some Model.Escort
  | some "masseuse" => some Model.Masseuse
  | some "of-model" => some Model.OFModel
  | some "spa" => some Model.Spa
  | _ => none

/-- The function `getModelByType` of analytics.js:11 on a string or `undefined`. -/
def Analytics.getModelByTypeOf (userType : Option String) : Option Model :=
  match userType with
  | some "escort" => some Model.Escort
  | some "masseuse" => some Model.Masseuse
  | some "of-model" => some Model.OFModel
  | some "spa" => some Model.Spa
  | _ => none

/-! ## Specification predicates -/

/-- Cross-collection uniqueness: every stored email and username is lower-case
and no email, and no username, occurs in more than one document of the four
collections taken together. -/
def UniqueIdentities (L : Lib) (s : Store) : Prop :=
  (∀ p ∈ s.all, L.toLowerCase p.email = p.email ∧ L.toLowerCase p.username = p.username)
    ∧ (s.all.map (fun p => p.email)).Nodup
    ∧ (s.all.map (fun p => p.username)).Nodup

namespace Profiles

/-- The package-tier priority the specification gives a profile: elite 3,
premium 2, basic 1 and 0 for an absent or any other package type. -/
def priorityOf (p : Profile) : Nat :=
  match packageTypeOf p with
  | some "elite" => 3
  | some "premium" => 2
  | some "basic" => 1
  | _ => 0

/-- Whether the package type of a profile is a name inherited from
`Object.prototype`. -/
def hasInheritedKey (p : Profile) : Bool :=
  match packageTypeOf p with
  | some k => decide (k ∈ inheritedKeys)
  | none => false

/-- The list `ps` is the stable arrangement of `pre` by non-increasing
priority: sorted, each priority class in the order it has in `pre`, and a
permutation of `pre`. -/
def IsStablePrioritySort (pre ps : List Profile) : Prop :=
  ps.Pairwise (fun a b => priorityOf b ≤ priorityOf a)
    ∧ (∀ k, ps.filter (fun p => priorityOf p = k) = pre.filter (fun p => priorityOf p = k))
    ∧ ps.Perm pre

/-- The number of documents of a collection that match a filter. -/
def matching (L : Lib) (s : Store) (m : Model) (f : Filter) : Nat :=
  ((s.coll m).filter (fun p => f.test L p)).length

end Profiles

namespace Analytics

/-- The counter `analytics.<interactionType>s` of an `analytics` sub-document. -/
def typeCounter (interactionType : String) (a : Analytics) : Nat :=
  match interactionType with
  | "phone_copy" => a.phone_copys
  | "call" => a.calls
  | "whatsapp" => a.whatsapps
  | "profile_view" => a.profile_views
  | "message" => a.messages
  | _ => 0

/-- The first collection, in the order of `models`, that holds the id, with
the document found there. -/
def holder (s : Store) (id : String) : List (Model × String) → Option (Model × Profile)
  | [] => none
  | (m, _) :: rest =>
    match findById s m id with
    | some p => some (m, p)
    | none => holder s id rest

end Analytics

/-! ## Sample library and documents

A concrete library and a few small databases on which the handlers are
evaluated. -/

/-- Lower-casing of the ASCII letters. -/
def asciiLower (s : String) : String := String.mk (s.data.map Char.toLower)

/-- A library instance: ASCII lower-casing, a tagging hash, case-insensitive
whole-string matching, alphanumeric ids. -/
def sampleLib : Lib :=
  { toLowerCase := asciiLower
    bcryptHash := fun p => "hash:" ++ p
    bcryptCompare := fun p h => h == "hash:" ++ p
    regexTest := fun pat v => asciiLower pat == asciiLower v
    castObjectId := fun id => id.data.all Char.isAlphanum }

/-- An active package of the given tier. -/
def activePackage (tier : String) : Package :=
  { packageType := some tier, status := some "active" }

/-- An active premium profile. -/
def docAda : Profile :=
  { _id := "a1", username := "ada", email := "ada@x.io", password := "hash:pw",
    isActive := true, currentPackage := some (activePackage "premium"), createdAt := 1,
    location := { county := some "Nairobi" } }

/-- A second document carrying the email of `docAda`. -/
def docAdaTwin : Profile :=
  { _id := "t1", username := "ada2", email := "ada@x.io", password := "hash:pw2",
    isActive := true, createdAt := 3 }

/-- An active elite profile, created after `docAda`. -/
def docEve : Profile :=
  { _id := "e1", username := "eve", email := "eve@x.io", password := "hash:pw",
    isActive := true, currentPackage := some (activePackage "elite"), createdAt := 2,
    location := { county := some "Nairobi" } }

/-- An active basic profile. -/
def docBea : Profile :=
  { _id := "b1", username := "bea", email := "bea@x.io", password := "hash:pw",
    isActive := true, currentPackage := some (activePackage "basic"), createdAt := 3,
    location := { county := some "Nairobi" } }

/-- A profile with `isActive` false. -/
def docIda : Profile :=
  { _id := "i1", username := "ida", email := "ida@x.io", password := "hash:pw",
    isActive := false, currentPackage := some (activePackage "elite"), createdAt := 4,
    location := { county := some "Nairobi" } }

/-- A deactivated account whose password is `pw`. -/
def docDan : Profile :=
  { _id := "d1", username := "dan", email := "dan@x.io", password := "hash:pw",
    isActive := true, isDeactivated := true }

/-- Two active escorts (elite, premium), one inactive escort, one masseuse. -/
def tierStore : Store := { escorts := [docEve, docAda, docIda], masseuses := [docBea] }

/-- A database whose only document is inactive. -/
def hiddenStore : Store := { masseuses := [docIda] }

/-- A database with at least one active document in every collection. -/
def fullStore : Store :=
  { escorts := [docEve, docAda], masseuses := [docBea], ofModels := [docAda], spas := [docEve] }

/-- A database with one account. -/
def soloStore : Store := { escorts := [docAda] }

/-- The document a model constructor yields for a given id and creation time. -/
def blankDoc (id : String) (createdAt : Nat) : Profile :=
  { _id := id, username := "", email := "", password := "", createdAt := createdAt }

/-- A registration of `Cleo@X.io` as a spa. -/
def cleoSpa : Auth.RegisterRequest :=
  { username := "Cleo", email := "Cleo@X.io", password := "pw", userType := "spa" }

/-- A later registration of the same email in another letter case, as an escort. -/
def cleoEscort : Auth.RegisterRequest :=
  { username := "cleo2", email := "CLEO@x.IO", password := "pw2", userType := "escort" }

/-- A profile with stored analytics: seven views. -/
def docKai : Profile :=
  { _id := "k1", username := "kai", email := "kai@x.io", password := "hash:pw",
    isActive := true, analytics := some { views := 7 } }

/-- A profile without an `analytics` sub-document. -/
def docLio : Profile :=
  { _id := "l1", username := "lio", email := "lio@x.io", password := "hash:pw" }

/-- An active profile whose package type is the name `constructor`. -/
def docCtor : Profile :=
  { _id := "c9", username := "cto", email := "cto@x.io", password := "hash:pw",
    isActive := true, currentPackage := some (activePackage "constructor"), createdAt := 9,
    location := { county := some "Nairobi" } }

/-- An escort with package type `constructor` and an elite masseuse. -/
def inheritedKeyStore : Store := { escorts := [docCtor], masseuses := [docEve] }

/-- A schema that declares `analytics` as a nested path: the getter yields an
object for every document. -/
def nestedPathSchema : Schema :=
  { analyticsOf := fun p => some (p.analytics.getD {}) }

/-- A schema that declares `analytics` as a sub-document without default. -/
def subdocumentSchema : Schema :=
  { analyticsOf := fun p => p.analytics }

/-- A database in which the id of `docLio` occurs in two collections. -/
def trackStore : Store := { escorts := [docLio], masseuses := [docLio, docKai] }

/-! ## Lemmas on the sample library -/

theorem ofNat_toNat_of_small (n : Nat) (h : n < 200) : (Char.ofNat n).toNat = n := by
  have hv : n.isValidChar := Or.inl (by omega)
  simp [Char.ofNat, hv, Char.ofNatAux, Char.toNat, UInt32.toNat]

theorem toLower_idem (c : Char) : c.toLower.toLower = c.toLower := by
  by_cases h : c.toNat ≥ 65 ∧ c.toNat ≤ 90
  · have h1 : c.toLower = Char.ofNat (c.toNat + 32) := by simp [Char.toLower, h]
    have h2 : (Char.ofNat (c.toNat + 32)).toNat = c.toNat + 32 :=
      ofNat_toNat_of_small _ (by omega)
    rw [h1]
    have h3 : ¬ ((Char.ofNat (c.toNat + 32)).toNat ≥ 65 ∧ (Char.ofNat (c.toNat + 32)).toNat ≤ 90) := by
      rw [h2]; omega
    unfold Char.toLower
    simp only [h3, if_false]
  · have h1 : c.toLower = c := by
      unfold Char.toLower
      simp only [h, if_false]
    rw [h1, h1]

theorem asciiLower_idem (s : String) : asciiLower (asciiLower s) = asciiLower s := by
  simp [asciiLower, Function.comp_def, toLower_idem]

/-! ## Lemmas on the database -/

theorem save_all_perm (s : Store) (m : Model) (p : Profile) :
    (s.save m p).all.Perm (p :: s.all) := by
  rw [List.perm_iff_count]
  intro a
  cases m <;> simp only [Store.save, Store.all, List.count_append, List.count_cons, List.count_nil] <;> omega

theorem mem_save_all (s : Store) (m : Model) (p q : Profile) :
    q ∈ (s.save m p).all ↔ q = p ∨ q ∈ s.all := by
  rw [(save_all_perm s m p).mem_iff, List.mem_cons]

theorem mem_all_iff (s : Store) (q : Profile) :
    q ∈ s.all ↔ ∃ m, q ∈ s.coll m := by
  constructor
  · intro h
    simp only [Store.all, List.mem_append] at h
    rcases h with ((h | h) | h) | h
    · exact ⟨.Escort, h⟩
    · exact ⟨.Masseuse, h⟩
    · exact ⟨.OFModel, h⟩
    · exact ⟨.Spa, h⟩
  · rintro ⟨m, h⟩
    cases m <;> simp [Store.all, Store.coll] at * <;> tauto

theorem find?_isSome_false {α : Type} (p : α → Bool) (l : List α) :
    (l.find? p).isSome = false ↔ ∀ x ∈ l, p x = false := by
  cases h : l.find? p with
  | none => simpa using h
  | some a =>
    simp only [Option.isSome_some, Bool.true_eq_false, false_iff]
    intro hall
    have := List.find?_some h
    rw [hall a (List.mem_of_find?_eq_some h)] at this
    exact Bool.noConfusion this

/-! ## Properties of auth.js -/

namespace Auth

/-! ### Login -/

theorem promiseAll_of_perm (e m o s : Option Profile)
    (settled : List (Sigma fun _ : Nat => Option Profile))
    (h : settled.Perm [⟨0, e⟩, ⟨1, m⟩, ⟨2, o⟩, ⟨3, s⟩]) :
    promiseAll settled = [e, m, o, s] := by
  have nd : List.NodupKeys
      [(⟨0, e⟩ : Sigma fun _ : Nat => Option Profile), ⟨1, m⟩, ⟨2, o⟩, ⟨3, s⟩] := by
    simp [List.NodupKeys, List.keys]
  have nd' : settled.NodupKeys := (List.perm_nodupKeys h).2 nd
  have hl := fun i => List.perm_dlookup i nd' nd h
  unfold promiseAll
  simp [hl, List.range, List.range.loop]

theorem loginSuccess_token (u : Profile) (t : String) :
    (loginSuccess u t).token = some { userId := u._id, userType := t } := rfl

theorem loginSuccess_data (u : Profile) (t : String) :
    (loginSuccess u t).data.map (fun d => (d.id, d.userType)) = some (u._id, t) := by
  unfold loginSuccess
  dsimp only
  split_ifs <;> rfl

/-- Claim C1.  Login resolves the account by fixed collection priority.  For
every four-tuple of lookup results (escort, masseuse, of-model, spa) the loop
picks the first non-null result and the tag of its position; a non-null escort
result wins with tag `escort` whatever the other three are; the array that
`Promise.all` hands to the loop, hence the choice, is the same for every order
in which the four lookups settle; and a successful login issues its token and
its `data` for exactly the chosen user and tag. -/
theorem login_first_match_in_fixed_order (e m o s : Option Profile) :
    (firstUser [e, m, o, s] =
      match e, m, o, s with
      | some u, _, _, _ => some (u, "escort")
      | none, some u, _, _ => some (u, "masseuse")
      | none, none, some u, _ => some (u, "of-model")
      | none, none, none, some u => some (u, "spa")
      | none, none, none, none => none)
    ∧ (∀ u, e = some u → firstUser [e, m, o, s] = some (u, "escort"))
    ∧ (∀ settled : List (Sigma fun _ : Nat => Option Profile),
        settled.Perm [⟨0, e⟩, ⟨1, m⟩, ⟨2, o⟩, ⟨3, s⟩] →
          firstUser (promiseAll settled) = firstUser [e, m, o, s])
    ∧ (∀ (L : Lib) (st : Store) (req : LoginRequest) (u : Profile) (t : String),
        loginLookups L st req.email = [e, m, o, s] → (login L st req).status = 200 →
        firstUser [e, m, o, s] = some (u, t) →
          (login L st req).token = some { userId := u._id, userType := t }
            ∧ (login L st req).data.map (fun d => (d.id, d.userType)) = some (u._id, t)) := by
  refine ⟨?_, ?_, ?_, ?_⟩
  · cases e <;> cases m <;> cases o <;> cases s <;> rfl
  · rintro u rfl; rfl
  · intro settled h
    rw [promiseAll_of_perm e m o s settled h]
  · intro L st req u t hl hst hf
    unfold login at hst ⊢
    rw [hl, hf] at hst ⊢
    simp only at hst ⊢
    split at hst
    · simp at hst
    · split at hst
      · simp at hst
      · split at hst
        · simp at hst
        · rename_i h1 h2 h3
          rw [if_neg h1, if_neg h2, if_neg h3]
          exact ⟨loginSuccess_token u t, loginSuccess_data u t⟩

/-- Witness for C1: the same email in the escort and the of-model collection,
lookups settling in the order of-model, escort, spa, masseuse. -/
theorem login_first_match_in_fixed_order_witness :
    firstUser [some docAda, none, some docAdaTwin, none] = some (docAda, "escort")
    ∧ List.Perm [(⟨2, some docAdaTwin⟩ : Sigma fun _ : Nat => Option Profile), ⟨0, some docAda⟩,
          ⟨3, none⟩, ⟨1, none⟩]
        [⟨0, some docAda⟩, ⟨1, none⟩, ⟨2, some docAdaTwin⟩, ⟨3, none⟩]
    ∧ firstUser (promiseAll [⟨2, some docAdaTwin⟩, ⟨0, some docAda⟩, ⟨3, none⟩, ⟨1, none⟩])
        = firstUser [some docAda, none, some docAdaTwin, none]
    ∧ (login sampleLib { escorts := [docAda], ofModels := [docAdaTwin] }
          { email := "Ada@x.io", password := "pw" }).token
        = some { userId := "a1", userType := "escort" } := by
  have hperm : List.Perm [(⟨2, some docAdaTwin⟩ : Sigma fun _ : Nat => Option Profile),
      ⟨0, some docAda⟩, ⟨3, none⟩, ⟨1, none⟩]
      [⟨0, some docAda⟩, ⟨1, none⟩, ⟨2, some docAdaTwin⟩, ⟨3, none⟩] := by decide
  have h := login_first_match_in_fixed_order (some docAda) none (some docAdaTwin) none
  exact ⟨h.2.1 docAda rfl, hperm, h.2.2.1 _ hperm,
    (h.2.2.2 sampleLib { escorts := [docAda], ofModels := [docAdaTwin] }
      { email := "Ada@x.io", password := "pw" } docAda "escort"
      (by decide) (by decide) (by decide)).1⟩

/-- Counterexample for C2: on one database, a login for a deactivated account
and a login for an unknown email are both answered 401, with different
message texts. -/
theorem login_deactivated_message_is_distinct :
    firstUser (loginLookups sampleLib { escorts := [docDan] } "dan@x.io") = some (docDan, "escort")
    ∧ docDan.isDeactivated = true
    ∧ firstUser (loginLookups sampleLib { escorts := [docDan] } "nobody@x.io") = none
    ∧ (login sampleLib { escorts := [docDan] } { email := "dan@x.io", password := "pw" }).status = 401
    ∧ (login sampleLib { escorts := [docDan] } { email := "nobody@x.io", password := "pw" }).status = 401
    ∧ (login sampleLib { escorts := [docDan] } { email := "dan@x.io", password := "pw" }).message
        ≠ (login sampleLib { escorts := [docDan] } { email := "nobody@x.io", password := "pw" }).message := by
  decide

/-- Claim C2, amended.  For every login request with non-empty email and
password each of the three rejection cases answers 401 with `success` false
and no token; an unknown email and a failed password comparison carry the same
message `Invalid email or password`, while a deactivated account carries the
different message `Account is deactivated. Please contact support.` -/
theorem login_rejections_are_401 (L : Lib) (s : Store) (req : LoginRequest)
    (he : req.email ≠ "") (hp : req.password ≠ "") :
    (firstUser (loginLookups L s req.email) = none →
        login L s req
          = { status := 401, success := false, message := "Invalid email or password" })
    ∧ (∀ u t, firstUser (loginLookups L s req.email) = some (u, t) → u.isDeactivated = true →
        login L s req
          = { status := 401, success := false,
              message := "Account is deactivated. Please contact support." })
    ∧ (∀ u t, firstUser (loginLookups L s req.email) = some (u, t) → u.isDeactivated = false →
        L.bcryptCompare req.password u.password = false →
        login L s req
          = { status := 401, success := false, message := "Invalid email or password" })
    ∧ "Account is deactivated. Please contact support." ≠ "Invalid email or password" := by
  have h0 : ¬ (req.email = "" ∨ req.password = "") := by simp [he, hp]
  refine ⟨?_, ?_, ?_, by decide⟩
  · intro h
    unfold login
    rw [if_neg h0, h]
  · intro u t h hd
    unfold login
    rw [if_neg h0, h]
    simp [hd]
  · intro u t h hd hc
    unfold login
    rw [if_neg h0, h]
    simp [hd, hc]

/-- Witness for C2 amended: the deactivated account of the sample database. -/
theorem login_rejections_are_401_witness :
    ({ email := "dan@x.io", password := "pw" } : LoginRequest).email ≠ ""
    ∧ ({ email := "dan@x.io", password := "pw" } : LoginRequest).password ≠ ""
    ∧ firstUser (loginLookups sampleLib { escorts := [docDan] } "dan@x.io") = some (docDan, "escort")
    ∧ login sampleLib { escorts := [docDan] } { email := "dan@x.io", password := "pw" }
        = { status := 401, success := false,
            message := "Account is deactivated. Please contact support." } :=
  ⟨by decide, by decide, by decide,
    (login_rejections_are_401 sampleLib { escorts := [docDan] }
      { email := "dan@x.io", password := "pw" } (by decide) (by decide)).2.1
      docDan "escort" (by decide) (by decide)⟩

/-- Claim C3.  When the first matching account in fixed collection order has
`isDeactivated` set, login answers 401 and issues no token, and the response
is the same for every non-empty password and every outcome of the password
comparison. -/
theorem login_deactivated_always_unauthorized (L : Lib) (s : Store) (req : LoginRequest)
    (u : Profile) (t : String) (he : req.email ≠ "") (hp : req.password ≠ "")
    (hfirst : firstUser (loginLookups L s req.email) = some (u, t))
    (hd : u.isDeactivated = true) :
    (login L s req).status = 401 ∧ (login L s req).token = none
    ∧ (∀ (compare : String → String → Bool) (password : String), password ≠ "" →
        login { L with bcryptCompare := compare } s { req with password := password }
          = login L s req) := by
  have h0 : ¬ (req.email = "" ∨ req.password = "") := by simp [he, hp]
  have h1 : login L s req =
      { status := 401, success := false,
        message := "Account is deactivated. Please contact support." } := by
    unfold login
    rw [if_neg h0, hfirst]
    simp [hd]
  refine ⟨by rw [h1], by rw [h1], ?_⟩
  intro compare password hpw
  rw [h1]
  unfold login
  have h2 : ¬ (req.email = "" ∨ password = "") := by simp [he, hpw]
  simp only [h2, if_false]
  have : loginLookups { L with bcryptCompare := compare } s req.email = loginLookups L s req.email := rfl
  rw [this, hfirst]
  simp [hd]

/-- Witness for C3: a deactivated account and its correct password. -/
theorem login_deactivated_always_unauthorized_witness :
    (login sampleLib { escorts := [docDan] } { email := "Dan@X.io", password := "pw" }).status = 401
    ∧ (login sampleLib { escorts := [docDan] } { email := "Dan@X.io", password := "pw" }).token = none
    ∧ sampleLib.bcryptCompare "pw" docDan.password = true :=
  have h := login_deactivated_always_unauthorized sampleLib { escorts := [docDan] }
    { email := "Dan@X.io", password := "pw" } docDan "escort" (by decide) (by decide)
    (by decide) (by decide)
  ⟨h.1, h.2.1, by decide⟩

/-! ### Register -/

/-- No probe of `existingUsers` finds a document exactly when no stored
document carries the lower-cased email or username. -/
theorem existingUsers_none_iff (L : Lib) (s : Store) (req : RegisterRequest) :
    (existingUsers L s req).any (fun user => user.isSome) = false ↔
      ∀ p ∈ s.all, p.email ≠ L.toLowerCase req.email ∧ p.username ≠ L.toLowerCase req.username := by
  simp only [existingUsers, findOneByEmailOrUsername, Store.coll, Store.all, List.any_cons,
    List.any_nil, Bool.or_false, Bool.or_eq_false_iff, find?_isSome_false, List.mem_append,
    decide_eq_false_iff_not, not_or, and_assoc]
  constructor
  · rintro ⟨h1, h2, h3, h4⟩ p hp
    rcases hp with ((h | h) | h) | h
    · exact h1 p h
    · exact h2 p h
    · exact h3 p h
    · exact h4 p h
  · intro h
    exact ⟨fun p hp => h p (Or.inl (Or.inl (Or.inl hp))), fun p hp => h p (Or.inl (Or.inl (Or.inr hp))),
      fun p hp => h p (Or.inl (Or.inr hp)), fun p hp => h p (Or.inr hp)⟩

/-- The database after a register request: unchanged unless the response is
201, in which case the new document was saved and no probe had matched. -/
theorem register_cases (L : Lib) (blank : Profile) (s : Store) (req : RegisterRequest) :
    ((register L blank s req).2 = s ∧ (register L blank s req).1.status ≠ 201) ∨
    (∃ m, (register L blank s req).2 = s.save m (newUser L blank req)
      ∧ (register L blank s req).1.status = 201
      ∧ (existingUsers L s req).any (fun user => user.isSome) = false) := by
  unfold register
  split
  · left; exact ⟨rfl, by simp⟩
  · split
    · left; exact ⟨rfl, by simp⟩
    · split
      · left; exact ⟨rfl, by simp⟩
      · rename_i h
        split
        · left; exact ⟨rfl, by simp⟩
        · rename_i m hm
          right
          exact ⟨m, rfl, rfl, by simpa using h⟩

theorem register_preserves (L : Lib)
    (hidem : ∀ x, L.toLowerCase (L.toLowerCase x) = L.toLowerCase x)
    (blank : Profile) (s : Store) (req : RegisterRequest) (hinv : UniqueIdentities L s) :
    UniqueIdentities L (register L blank s req).2 := by
  rcases register_cases L blank s req with ⟨h, _⟩ | ⟨m, h, _, hnone⟩
  · rw [h]; exact hinv
  · rw [h]
    rw [existingUsers_none_iff] at hnone
    obtain ⟨hlow, hem, hun⟩ := hinv
    have hperm := save_all_perm s m (newUser L blank req)
    refine ⟨?_, ?_, ?_⟩
    · intro p hp
      rw [mem_save_all] at hp
      rcases hp with rfl | hp
      · exact ⟨hidem _, hidem _⟩
      · exact hlow p hp
    · rw [(hperm.map _).nodup_iff, List.map_cons, List.nodup_cons]
      refine ⟨?_, hem⟩
      simp only [List.mem_map, not_exists, not_and]
      intro p hp
      exact (hnone p hp).1
    · rw [(hperm.map _).nodup_iff, List.map_cons, List.nodup_cons]
      refine ⟨?_, hun⟩
      simp only [List.mem_map, not_exists, not_and]
      intro p hp
      exact (hnone p hp).2

theorem register_keeps_email (L : Lib) (blank : Profile) (s : Store) (req : RegisterRequest)
    (e : String) (h : ∃ p ∈ s.all, p.email = e) :
    ∃ p ∈ (register L blank s req).2.all, p.email = e := by
  rcases register_cases L blank s req with ⟨hs, _⟩ | ⟨m, hs, _, _⟩
  · rw [hs]; exact h
  · rw [hs]
    obtain ⟨p, hp, he⟩ := h
    exact ⟨p, (mem_save_all s m _ p).2 (Or.inr hp), he⟩

theorem registerAll_keeps_email (L : Lib) (e : String) (reqs : List (Profile × RegisterRequest)) :
    ∀ s : Store, (∃ p ∈ s.all, p.email = e) → ∃ p ∈ (registerAll L s reqs).all, p.email = e := by
  induction reqs with
  | nil => intro s h; exact h
  | cons br rest ih =>
    intro s h
    obtain ⟨blank, req⟩ := br
    exact ih _ (register_keeps_email L blank s req e h)

theorem register_rejects_known_email (L : Lib) (blank : Profile) (s : Store)
    (req : RegisterRequest) (h : ∃ p ∈ s.all, p.email = L.toLowerCase req.email) :
    (register L blank s req).2 = s ∧ (register L blank s req).1.status ≠ 201
      ∧ (req.username ≠ "" → req.email ≠ "" → req.password ≠ "" →
          req.userType ∈ VALID_USER_TYPES → (register L blank s req).1.status = 409) := by
  have hany : (existingUsers L s req).any (fun user => user.isSome) = true := by
    by_contra hc
    have hc : (existingUsers L s req).any (fun user => user.isSome) = false := by simpa using hc
    rw [existingUsers_none_iff] at hc
    obtain ⟨p, hp, he⟩ := h
    exact (hc p hp).1 he
  rcases register_cases L blank s req with ⟨hs, hst⟩ | ⟨m, _, _, hnone⟩
  · refine ⟨hs, hst, ?_⟩
    intro hu he hp ht
    have hty : req.userType ≠ "" := by
      intro h0
      rw [h0] at ht
      revert ht
      decide
    unfold register
    rw [if_neg (by simp [hu, he, hp, hty]), if_neg (by simpa using ht), if_pos hany]
  · rw [hany] at hnone
    exact Bool.noConfusion hnone

/-- Claim C4.  With an idempotent `toLowerCase`, every register request maps a
database with cross-collection uniqueness (`UniqueIdentities`) to one with the
same property.  After a registration with email `e` has been answered 201,
every later register request whose email equals `e` up to letter case, after
any number of register requests in between, leaves the database unchanged and
is not answered 201; when it carries a username, an email, a password and one
of the four user types it is answered 409. -/
theorem register_preserves_cross_collection_uniqueness (L : Lib)
    (hidem : ∀ x, L.toLowerCase (L.toLowerCase x) = L.toLowerCase x)
    (blank : Profile) (s : Store) (req : RegisterRequest) (hinv : UniqueIdentities L s) :
    UniqueIdentities L (register L blank s req).2
    ∧ ((register L blank s req).1.status = 201 →
        ∀ (later : List (Profile × RegisterRequest)) (blank' : Profile) (req' : RegisterRequest),
          L.toLowerCase req'.email = L.toLowerCase req.email →
          (register L blank' (registerAll L (register L blank s req).2 later) req').2
              = registerAll L (register L blank s req).2 later
            ∧ (register L blank' (registerAll L (register L blank s req).2 later) req').1.status ≠ 201
            ∧ (req'.username ≠ "" → req'.email ≠ "" → req'.password ≠ "" →
                req'.userType ∈ VALID_USER_TYPES →
                (register L blank' (registerAll L (register L blank s req).2 later) req').1.status
                  = 409)) := by
  refine ⟨register_preserves L hidem blank s req hinv, ?_⟩
  intro hok later blank' req' heq
  apply register_rejects_known_email
  rw [heq]
  apply registerAll_keeps_email
  rcases register_cases L blank s req with ⟨_, hst⟩ | ⟨m, hs, _, _⟩
  · exact absurd hok hst
  · rw [hs]
    exact ⟨newUser L blank req, (mem_save_all s m _ _).2 (Or.inl rfl), rfl⟩

/-- Witness for C4: `Cleo@X.io` is registered as a spa, then `CLEO@x.IO` as an
escort is answered 409. -/
theorem register_preserves_cross_collection_uniqueness_witness :
    (∀ x, sampleLib.toLowerCase (sampleLib.toLowerCase x) = sampleLib.toLowerCase x)
    ∧ UniqueIdentities sampleLib soloStore
    ∧ (register sampleLib (blankDoc "c1" 5) soloStore cleoSpa).1.status = 201
    ∧ UniqueIdentities sampleLib (register sampleLib (blankDoc "c1" 5) soloStore cleoSpa).2
    ∧ (register sampleLib (blankDoc "c2" 6)
          (registerAll sampleLib (register sampleLib (blankDoc "c1" 5) soloStore cleoSpa).2 [])
          cleoEscort).1.status = 409 := by
  have hinv : UniqueIdentities sampleLib soloStore := by
    unfold UniqueIdentities
    decide
  have h := register_preserves_cross_collection_uniqueness sampleLib asciiLower_idem
    (blankDoc "c1" 5) soloStore cleoSpa hinv
  exact ⟨asciiLower_idem, hinv, by decide, h.1,
    (h.2 (by decide) [] (blankDoc "c2" 6) cleoEscort (by decide)).2.2
      (by decide) (by decide) (by decide) (by decide)⟩

end Auth

/-! ## Properties of profiles.js -/

namespace Profiles

theorem packagePriority_of_plain (p : Profile) (h : hasInheritedKey p = false) :
    packagePriority (packageTypeOf p) = some (priorityOf p) := by
  unfold hasInheritedKey at h
  unfold packagePriority priorityOf
  split <;> simp_all

theorem comparePriority_le_iff (a b : Profile) (ha : hasInheritedKey a = false)
    (hb : hasInheritedKey b = false) :
    (comparePriority a b).getD 0 ≤ 0 ↔ priorityOf b ≤ priorityOf a := by
  unfold comparePriority
  rw [packagePriority_of_plain a ha, packagePriority_of_plain b hb]
  simp only [Option.getD_some]
  omega

theorem orderedInsert_congr (r r' : Profile → Profile → Prop) [DecidableRel r] [DecidableRel r']
    (a : Profile) (l : List Profile) (h : ∀ b ∈ l, (r a b ↔ r' a b)) :
    l.orderedInsert r a = l.orderedInsert r' a := by
  induction l with
  | nil => rfl
  | cons b l ih =>
    have hb := h b (List.mem_cons_self b l)
    have hl : ∀ c ∈ l, (r a c ↔ r' a c) := fun c hc => h c (List.mem_cons_of_mem b hc)
    by_cases hr : r a b
    · simp [List.orderedInsert, hr, hb.1 hr]
    · have hr' : ¬ r' a b := fun h' => hr (hb.2 h')
      simp [List.orderedInsert, hr, hr', ih hl]

theorem insertionSort_congr (r r' : Profile → Profile → Prop) [DecidableRel r] [DecidableRel r']
    (l : List Profile) (h : ∀ a ∈ l, ∀ b ∈ l, (r a b ↔ r' a b)) :
    l.insertionSort r = l.insertionSort r' := by
  induction l with
  | nil => rfl
  | cons a l ih =>
    have hl : ∀ x ∈ l, ∀ y ∈ l, (r x y ↔ r' x y) := fun x hx y hy =>
      h x (List.mem_cons_of_mem a hx) y (List.mem_cons_of_mem a hy)
    rw [List.insertionSort, List.insertionSort, ih hl]
    apply orderedInsert_congr
    intro b hb
    rw [List.mem_insertionSort] at hb
    exact h a (List.mem_cons_self a l) b (List.mem_cons_of_mem a hb)

/-- Away from inherited keys the sort of the handlers is the stable sort by
the priority of the specification. -/
theorem arraySort_eq_prioritySort (l : List Profile) (h : ∀ p ∈ l, hasInheritedKey p = false) :
    arraySort comparePriority l = l.insertionSort (fun a b => priorityOf b ≤ priorityOf a) := by
  unfold arraySort
  apply insertionSort_congr
  intro a ha b hb
  exact comparePriority_le_iff a b (h a ha) (h b hb)

theorem filter_orderedInsert (k : Nat) (a : Profile) (l : List Profile) :
    (l.orderedInsert (fun a b => priorityOf b ≤ priorityOf a) a).filter
        (fun p => priorityOf p = k)
      = (a :: l).filter (fun p => priorityOf p = k) := by
  induction l with
  | nil => rfl
  | cons b l ih =>
    rw [List.orderedInsert]
    split
    · rfl
    · rename_i h
      by_cases ha : priorityOf a = k
      · have hb : ¬ priorityOf b = k := by omega
        rw [List.filter_cons_of_neg (by simpa using hb), ih]
        simp [List.filter_cons, ha, hb]
      · rw [List.filter_cons, ih]
        simp [List.filter_cons, ha]

theorem prioritySort_stable (k : Nat) (l : List Profile) :
    (l.insertionSort (fun a b => priorityOf b ≤ priorityOf a)).filter
        (fun p => priorityOf p = k)
      = l.filter (fun p => priorityOf p = k) := by
  induction l with
  | nil => rfl
  | cons a l ih =>
    rw [List.insertionSort, filter_orderedInsert, List.filter_cons, ih, List.filter_cons]

theorem pairwise_orderedInsert (a : Profile) (l : List Profile)
    (h : l.Pairwise (fun a b => priorityOf b ≤ priorityOf a)) :
    (l.orderedInsert (fun a b => priorityOf b ≤ priorityOf a) a).Pairwise
      (fun a b => priorityOf b ≤ priorityOf a) := by
  induction l with
  | nil => simp
  | cons b l ih =>
    rw [List.orderedInsert]
    rw [List.pairwise_cons] at h
    split
    · rename_i hab
      rw [List.pairwise_cons]
      refine ⟨?_, List.pairwise_cons.2 h⟩
      intro c hc
      rcases List.mem_cons.1 hc with rfl | hc
      · exact hab
      · exact le_trans (h.1 c hc) hab
    · rename_i hab
      rw [List.pairwise_cons]
      refine ⟨?_, ih h.2⟩
      intro c hc
      rw [List.mem_orderedInsert] at hc
      rcases hc with rfl | hc
      · omega
      · exact h.1 c hc

/-- Away from inherited keys the sort of the handlers yields the stable
arrangement by non-increasing priority. -/
theorem arraySort_isStablePrioritySort (l : List Profile)
    (h : ∀ p ∈ l, hasInheritedKey p = false) :
    IsStablePrioritySort l (arraySort comparePriority l) := by
  rw [arraySort_eq_prioritySort l h]
  refine ⟨?_, fun k => prioritySort_stable k l, List.perm_insertionSort _ l⟩
  clear h
  induction l with
  | nil => simp
  | cons a l ih =>
    rw [List.insertionSort]
    exact pairwise_orderedInsert a _ ih

theorem list_cases (L : Lib) (s : Store) (q : Query) :
    (modelsToSearch (q.userType.getD "all") = none ∧ (list L s q).status = 400
        ∧ (list L s q).profiles = none)
    ∨ (∃ models, modelsToSearch (q.userType.getD "all") = some models
        ∧ q.page = 0 ∧ 0 < q.limit ∧ (list L s q).status = 500 ∧ (list L s q).profiles = none)
    ∨ (∃ models, modelsToSearch (q.userType.getD "all") = some models
        ∧ (1 ≤ q.page ∨ q.limit = 0)
        ∧ list L s q =
          { status := 200
            success := true
            profiles := some (arraySort comparePriority (fetchAll L s q models))
            pagination := some
              { page := q.page
                limit := q.limit
                total := (arraySort comparePriority (fetchAll L s q models)).length
                hasMore := (arraySort comparePriority (fetchAll L s q models)).length == q.limit } }) := by
  unfold list
  cases hm : modelsToSearch (q.userType.getD "all") with
  | none => left; simp
  | some models =>
    right
    have hne : models ≠ [] := by
      unfold modelsToSearch at hm
      split at hm
      · cases hm; simp [allModels]
      · split at hm
        · cases hm; simp
        · cases hm
    by_cases hp : q.page = 0 ∧ 0 < q.limit
    · left
      exact ⟨models, rfl, hp.1, hp.2, by simp [hp, hne], by simp [hp, hne]⟩
    · right
      refine ⟨models, rfl, by omega, ?_⟩
      have : ¬ (q.page = 0 ∧ 0 < q.limit ∧ models ≠ []) := fun h => hp ⟨h.1, h.2.1⟩
      simp only [this, if_false]


theorem length_findPage (L : Lib) (s : Store) (m : Model) (f : Filter) (skip limit : Nat)
    (hl : 0 < limit) :
    (findPage L s m f skip limit).length = min limit (countDocuments L s m f - skip) := by
  have h0 : limit ≠ 0 := by omega
  simp [findPage, applyLimit, h0, dbSort, countDocuments, List.length_insertionSort]

theorem length_fetchAll (L : Lib) (s : Store) (q : Query) (models : List (Model × String)) :
    (fetchAll L s q models).length
      = (models.map (fun mt =>
          (findPage L s mt.1 (modelFilter q mt.2) ((q.page - 1) * q.limit) q.limit).length)).sum := by
  simp [fetchAll, typedProfiles, List.length_flatten, Function.comp_def]

theorem length_arraySort (l : List Profile) : (arraySort comparePriority l).length = l.length :=
  List.length_insertionSort _ l

theorem list_profiles_of_paged (L : Lib) (s : Store) (q : Query) (models : List (Model × String))
    (hm : modelsToSearch (q.userType.getD "all") = some models) (hp : 1 ≤ q.page) :
    (list L s q).profiles = some (arraySort comparePriority (fetchAll L s q models)) := by
  rcases list_cases L s q with ⟨h, _⟩ | ⟨_, _, h, _⟩ | ⟨models', hm', _, h⟩
  · rw [hm] at h; cases h
  · omega
  · rw [hm] at hm'
    cases hm'
    rw [h]

theorem listLocation_cases (L : Lib) (s : Store) (county : String) (location : Option String)
    (q : Query) :
    (q.page = 0 ∧ 0 < q.limit ∧ (listLocation L s county location q).status = 500
        ∧ (listLocation L s county location q).profiles = none
        ∧ (listLocation L s county location q).pagination = none)
    ∨ ((listLocation L s county location q).status = 200
        ∧ (listLocation L s county location q).profiles
          = some (arraySort comparePriority
              (fetchAllLocation L s (locationFilter county location q.area) q
                ((modelsToSearch (q.userType.getD "all")).getD [])))
        ∧ (listLocation L s county location q).pagination
          = some
              { page := q.page
                limit := q.limit
                total := totalCount L s (locationFilter county location q.area)
                  ((modelsToSearch (q.userType.getD "all")).getD [])
                hasMore := decide ((q.page - 1) * q.limit
                  + (arraySort comparePriority
                      (fetchAllLocation L s (locationFilter county location q.area) q
                        ((modelsToSearch (q.userType.getD "all")).getD []))).length
                  < totalCount L s (locationFilter county location q.area)
                      ((modelsToSearch (q.userType.getD "all")).getD [])) }) := by
  unfold listLocation
  by_cases hp : q.page = 0 ∧ 0 < q.limit ∧ (modelsToSearch (q.userType.getD "all")).getD [] ≠ []
  · left
    simp only [hp, and_self, if_true, true_and, ne_eq, not_false_eq_true]
  · right
    simp only [hp, if_false]
    trivial

theorem fetchAll_allModels (L : Lib) (s : Store) (q : Query) :
    fetchAll L s q allModels =
      typedProfiles "escort"
        (findPage L s Model.Escort (modelFilter q "escort") ((q.page - 1) * q.limit) q.limit)
      ++ typedProfiles "masseuse"
        (findPage L s Model.Masseuse (modelFilter q "masseuse") ((q.page - 1) * q.limit) q.limit)
      ++ typedProfiles "of-model"
        (findPage L s Model.OFModel (modelFilter q "of-model") ((q.page - 1) * q.limit) q.limit)
      ++ typedProfiles "spa"
        (findPage L s Model.Spa (modelFilter q "spa") ((q.page - 1) * q.limit) q.limit) := by
  simp [fetchAll, allModels]

theorem fetchAllLocation_allModels (L : Lib) (s : Store) (f : Filter) (q : Query) :
    fetchAllLocation L s f q allModels =
      typedProfiles "escort" (findPage L s Model.Escort f ((q.page - 1) * q.limit) q.limit)
      ++ typedProfiles "masseuse" (findPage L s Model.Masseuse f ((q.page - 1) * q.limit) q.limit)
      ++ typedProfiles "of-model" (findPage L s Model.OFModel f ((q.page - 1) * q.limit) q.limit)
      ++ typedProfiles "spa" (findPage L s Model.Spa f ((q.page - 1) * q.limit) q.limit) := by
  simp [fetchAllLocation, allModels]

/-- When no fetched profile has a package type inherited from
`Object.prototype`, the three listings return the stable arrangement of the
pre-sort concatenation by non-increasing priority. -/
theorem listing_sorted_away_from_inherited_keys (L : Lib) (s : Store) (q : Query)
    (county : String) (location : Option String) :
    (∀ ps, (list L s q).profiles = some ps →
        ∃ models, modelsToSearch (q.userType.getD "all") = some models
          ∧ ((∀ p ∈ fetchAll L s q models, hasInheritedKey p = false) →
              IsStablePrioritySort (fetchAll L s q models) ps))
    ∧ (∀ ps, (listLocation L s county location q).profiles = some ps →
        (∀ p ∈ fetchAllLocation L s (locationFilter county location q.area) q
            ((modelsToSearch (q.userType.getD "all")).getD []), hasInheritedKey p = false) →
        IsStablePrioritySort
          (fetchAllLocation L s (locationFilter county location q.area) q
            ((modelsToSearch (q.userType.getD "all")).getD [])) ps) := by
  refine ⟨?_, ?_⟩
  · intro ps hps
    rcases list_cases L s q with ⟨_, _, h⟩ | ⟨_, _, _, _, _, h⟩ | ⟨models, hm, _, h⟩
    · rw [h] at hps; cases hps
    · rw [h] at hps; cases hps
    · rw [h] at hps
      cases hps
      exact ⟨models, hm, arraySort_isStablePrioritySort _⟩
  · intro ps hps hplain
    rcases listLocation_cases L s county location q with ⟨_, _, _, h, _⟩ | ⟨_, h, _⟩
    · rw [h] at hps; cases hps
    · rw [h] at hps
      cases hps
      exact arraySort_isStablePrioritySort _ hplain

/-- Claim C5, evaluated where the code departs from it.  The handler looks the
package type up in an object literal, so for the package type `constructor`
the lookup yields a member inherited from `Object.prototype` instead of 0,
the comparator is `NaN` and the sort leaves the fetch order: the unscoped
listing and the county listing return the `constructor` profile, of priority
0, before the elite profile, of priority 3. -/
theorem listing_keeps_elite_behind_inherited_key :
    (list sampleLib inheritedKeyStore {}).profiles
        = some [selectListing { docCtor with userType := "escort" },
                selectListing { docEve with userType := "masseuse" }]
    ∧ (listByCounty sampleLib inheritedKeyStore "Nairobi" {}).profiles
        = some [selectListing { docCtor with userType := "escort" },
                selectListing { docEve with userType := "masseuse" }]
    ∧ packageTypeOf docCtor = some "constructor"
    ∧ packagePriority (some "constructor") = none
    ∧ comparePriority (selectListing { docCtor with userType := "escort" })
        (selectListing { docEve with userType := "masseuse" }) = none
    ∧ priorityOf (selectListing { docCtor with userType := "escort" }) = 0
    ∧ priorityOf (selectListing { docEve with userType := "masseuse" }) = 3 := by
  decide

/-- Claim C7.  In every 200 response of the unscoped listing,
`pagination.total` is the number of returned profiles and `pagination.hasMore`
is true exactly when that number equals the limit. -/
theorem list_total_is_page_size (L : Lib) (s : Store) (q : Query)
    (h : (list L s q).status = 200) :
    ∃ ps pg, (list L s q).profiles = some ps ∧ (list L s q).pagination = some pg
      ∧ pg.total = ps.length ∧ (pg.hasMore = true ↔ ps.length = q.limit) := by
  rcases list_cases L s q with ⟨_, h', _⟩ | ⟨_, _, _, _, h', _⟩ | ⟨models, _, _, h'⟩
  · rw [h'] at h; cases h
  · rw [h'] at h; cases h
  · rw [h']
    exact ⟨_, _, rfl, rfl, rfl, by simp⟩

/-- Witness for C7: two escorts match, one is returned, `total` counts the
returned one. -/
theorem list_total_is_page_size_witness :
    (list sampleLib tierStore { limit := 1, userType := some "escort" }).status = 200
    ∧ countDocuments sampleLib tierStore Model.Escort
        (modelFilter { limit := 1, userType := some "escort" } "escort") = 2
    ∧ ∃ ps pg,
        (list sampleLib tierStore { limit := 1, userType := some "escort" }).profiles = some ps
        ∧ (list sampleLib tierStore { limit := 1, userType := some "escort" }).pagination = some pg
        ∧ pg.total = ps.length
        ∧ (pg.hasMore = true
            ↔ ps.length = ({ limit := 1, userType := some "escort" } : Query).limit) :=
  ⟨by decide, by decide,
    list_total_is_page_size sampleLib tierStore { limit := 1, userType := some "escort" }
      (by decide)⟩

theorem location_total (L : Lib) (s : Store) (county : String) (location : Option String)
    (q : Query) (h : (listLocation L s county location q).status = 200) :
    ∃ pg, (listLocation L s county location q).pagination = some pg
      ∧ pg.total = (((modelsToSearch (q.userType.getD "all")).getD []).map (fun mt =>
          matching L s mt.1 (locationFilter county location q.area))).sum := by
  rcases listLocation_cases L s county location q with ⟨_, _, h', _⟩ | ⟨_, _, h'⟩
  · rw [h'] at h; cases h
  · exact ⟨_, h', rfl⟩

/-- Claim C9.  In every 200 response of either location listing,
`pagination.total` is the sum over the selected collections of the number of
documents matching the location filter (the four counts added up for
`userType = all`), and it is the same for every page and limit. -/
theorem location_total_is_sum_of_counts (L : Lib) (s : Store) (county location : String)
    (q : Query) :
    ((listByCounty L s county q).status = 200 →
      ∃ pg, (listByCounty L s county q).pagination = some pg
        ∧ pg.total = (((modelsToSearch (q.userType.getD "all")).getD []).map (fun mt =>
            matching L s mt.1 (locationFilter county none q.area))).sum
        ∧ (q.userType.getD "all" = "all" →
            pg.total = matching L s Model.Escort (locationFilter county none q.area)
              + matching L s Model.Masseuse (locationFilter county none q.area)
              + matching L s Model.OFModel (locationFilter county none q.area)
              + matching L s Model.Spa (locationFilter county none q.area))
        ∧ (∀ page limit pg',
            (listByCounty L s county { q with page := page, limit := limit }).pagination
              = some pg' → pg'.total = pg.total))
    ∧ ((listByCountyLocation L s county location q).status = 200 →
      ∃ pg, (listByCountyLocation L s county location q).pagination = some pg
        ∧ pg.total = (((modelsToSearch (q.userType.getD "all")).getD []).map (fun mt =>
            matching L s mt.1 (locationFilter county (some location) q.area))).sum
        ∧ (q.userType.getD "all" = "all" →
            pg.total = matching L s Model.Escort (locationFilter county (some location) q.area)
              + matching L s Model.Masseuse (locationFilter county (some location) q.area)
              + matching L s Model.OFModel (locationFilter county (some location) q.area)
              + matching L s Model.Spa (locationFilter county (some location) q.area))
        ∧ (∀ page limit pg',
            (listByCountyLocation L s county location
              { q with page := page, limit := limit }).pagination = some pg' →
              pg'.total = pg.total)) := by
  have key : ∀ loc : Option String, (listLocation L s county loc q).status = 200 →
      ∃ pg, (listLocation L s county loc q).pagination = some pg
        ∧ pg.total = (((modelsToSearch (q.userType.getD "all")).getD []).map (fun mt =>
            matching L s mt.1 (locationFilter county loc q.area))).sum
        ∧ (q.userType.getD "all" = "all" →
            pg.total = matching L s Model.Escort (locationFilter county loc q.area)
              + matching L s Model.Masseuse (locationFilter county loc q.area)
              + matching L s Model.OFModel (locationFilter county loc q.area)
              + matching L s Model.Spa (locationFilter county loc q.area))
        ∧ (∀ page limit pg',
            (listLocation L s county loc { q with page := page, limit := limit }).pagination
              = some pg' → pg'.total = pg.total) := by
    intro loc h
    obtain ⟨pg, hpg, htot⟩ := location_total L s county loc q h
    refine ⟨pg, hpg, htot, ?_, ?_⟩
    · intro hall
      rw [htot]
      simp [modelsToSearch, hall, allModels, Nat.add_assoc]
    · intro page limit pg' hpg'
      rcases listLocation_cases L s county loc { q with page := page, limit := limit } with
        ⟨_, _, _, _, h'⟩ | ⟨h', _, _⟩
      · rw [h'] at hpg'; cases hpg'
      · obtain ⟨pg2, hpg2, htot2⟩ :=
          location_total L s county loc { q with page := page, limit := limit } h'
        rw [hpg2] at hpg'
        cases hpg'
        rw [htot2, htot]
  exact ⟨key none, key (some location)⟩

/-- Witness for C9: three documents match, two are returned, `total` is 3. -/
theorem location_total_is_sum_of_counts_witness :
    (listByCounty sampleLib tierStore "NAIROBI" { limit := 1 }).status = 200
    ∧ (listByCounty sampleLib tierStore "NAIROBI" { limit := 1 }).profiles.map List.length = some 2
    ∧ ∃ pg, (listByCounty sampleLib tierStore "NAIROBI" { limit := 1 }).pagination = some pg
        ∧ pg.total = 3 := by
  obtain ⟨pg, hpg, htot, _⟩ :=
    (location_total_is_sum_of_counts sampleLib tierStore "NAIROBI" "Westlands"
      { limit := 1 }).1 (by decide)
  refine ⟨by decide, by decide, pg, hpg, ?_⟩
  rw [htot]
  decide

/-- Counterexample for C10: the response for an inactive profile differs from
the response for an id held by no collection. -/
theorem hidden_profile_response_differs :
    findAcross hiddenStore "i1" allModels = some (docIda, "masseuse")
    ∧ docIda.isActive = false
    ∧ findAcross hiddenStore "zz" allModels = none
    ∧ (getById sampleLib hiddenStore "i1").status = 404
    ∧ (getById sampleLib hiddenStore "zz").status = 404
    ∧ getById sampleLib hiddenStore "i1" ≠ getById sampleLib hiddenStore "zz" := by
  decide

/-- Claim C10, amended.  For a castable id of a profile that exists but has
`isActive` false or a package status other than `active`, and a castable id
held by none of the four collections, both responses are 404 with `success`
false and no data; they differ in the message only, `Profile not available`
against `Profile not found`. -/
theorem hidden_and_missing_profiles_are_404 (L : Lib) (s : Store) (id missing : String)
    (p : Profile) (t : String)
    (hid : L.castObjectId id = true) (hmissing : L.castObjectId missing = true)
    (hfound : findAcross s id allModels = some (p, t))
    (hhidden : p.isActive = false ∨ p.currentPackage.bind (fun c => c.status) ≠ some "active")
    (hnone : findAcross s missing allModels = none) :
    getById L s id
        = { status := 404, success := false, message := some "Profile not available" }
    ∧ getById L s missing
        = { status := 404, success := false, message := some "Profile not found" }
    ∧ (getById L s id).status = (getById L s missing).status
    ∧ (getById L s id).success = (getById L s missing).success
    ∧ (getById L s id).data = (getById L s missing).data
    ∧ (getById L s id).message ≠ (getById L s missing).message := by
  have h1 : getById L s id
      = { status := 404, success := false, message := some "Profile not available" } := by
    unfold getById
    simp only [hid, hfound, Bool.not_true, Bool.false_eq_true, if_false, selectDetail]
    rw [if_pos]
    rcases hhidden with h | h
    · left; simp [h]
    · right; exact h
  have h2 : getById L s missing
      = { status := 404, success := false, message := some "Profile not found" } := by
    unfold getById
    simp only [hmissing, hnone, Bool.not_true, Bool.false_eq_true, if_false]
  refine ⟨h1, h2, ?_, ?_, ?_, ?_⟩ <;> rw [h1, h2]
  decide

/-- Witness for C10 amended: the inactive profile of the sample database and an
unknown id. -/
theorem hidden_and_missing_profiles_are_404_witness :
    sampleLib.castObjectId "i1" = true ∧ sampleLib.castObjectId "zz" = true
    ∧ findAcross hiddenStore "i1" allModels = some (docIda, "masseuse")
    ∧ findAcross hiddenStore "zz" allModels = none
    ∧ getById sampleLib hiddenStore "i1"
        = { status := 404, success := false, message := some "Profile not available" }
    ∧ getById sampleLib hiddenStore "zz"
        = { status := 404, success := false, message := some "Profile not found" } :=
  have h := hidden_and_missing_profiles_are_404 sampleLib hiddenStore "i1" "zz" docIda "masseuse"
    (by decide) (by decide) (by decide) (Or.inl (by decide)) (by decide)
  ⟨by decide, by decide, by decide, by decide, h.1, h.2.1⟩

/-- Claim C6, evaluated where the code departs from it.  The per-collection
query sorts on the string `currentPackage.packageType` in descending string
order, so a premium profile precedes an elite one: with limit 1 on the escort
collection, page 1 is the premium profile and page 2 the elite profile, whose
package priority is higher. -/
theorem database_sort_puts_premium_before_elite :
    (list sampleLib tierStore { page := 1, limit := 1, userType := some "escort" }).profiles
        = some [selectListing { docAda with userType := "escort" }]
    ∧ (list sampleLib tierStore { page := 2, limit := 1, userType := some "escort" }).profiles
        = some [selectListing { docEve with userType := "escort" }]
    ∧ packageTypeOf docAda = some "premium" ∧ packageTypeOf docEve = some "elite"
    ∧ priorityOf (selectListing { docAda with userType := "escort" })
        < priorityOf (selectListing { docEve with userType := "escort" }) := by
  decide

/-- Claim C8.  For a positive limit and a page of at least 1, with
`skip = (page - 1) * limit`, a collection with `c` matching profiles
contributes `min limit (max 0 (c - skip))` profiles; the listing returns the
sum of these over the selected collections, hence at most `4 * limit` for
`userType = all`, at most `limit` for a single user type, and exactly
`4 * limit` for `userType = all` when every collection has at least
`skip + limit` matching profiles (80 for limit 20 on page 1). -/
theorem skip_limit_apply_per_collection (L : Lib) (s : Store) (q : Query)
    (hl : 0 < q.limit) (hp : 1 ≤ q.page) :
    (∀ (m : Model) (type : String),
        (((findPage L s m (modelFilter q type) ((q.page - 1) * q.limit) q.limit).length : Nat) : Int)
          = min (q.limit : Int)
              (max 0 ((countDocuments L s m (modelFilter q type) : Int)
                - (((q.page - 1) * q.limit : Nat) : Int))))
    ∧ (∀ models, modelsToSearch (q.userType.getD "all") = some models →
        ∃ ps, (list L s q).profiles = some ps
          ∧ ps.length = (models.map (fun mt =>
              min q.limit
                (countDocuments L s mt.1 (modelFilter q mt.2) - (q.page - 1) * q.limit))).sum)
    ∧ (q.userType.getD "all" = "all" →
        ∃ ps, (list L s q).profiles = some ps ∧ ps.length ≤ 4 * q.limit
          ∧ ((∀ mt ∈ allModels,
                (q.page - 1) * q.limit + q.limit ≤ countDocuments L s mt.1 (modelFilter q mt.2)) →
              ps.length = 4 * q.limit))
    ∧ (∀ m, q.userType.getD "all" ≠ "all" → getModelByType (q.userType.getD "all") = some m →
        ∃ ps, (list L s q).profiles = some ps ∧ ps.length ≤ q.limit) := by
  have hlen : ∀ models, modelsToSearch (q.userType.getD "all") = some models →
      ∃ ps, (list L s q).profiles = some ps
        ∧ ps.length = (models.map (fun mt =>
            min q.limit
              (countDocuments L s mt.1 (modelFilter q mt.2) - (q.page - 1) * q.limit))).sum := by
    intro models hm
    refine ⟨_, list_profiles_of_paged L s q models hm hp, ?_⟩
    rw [length_arraySort, length_fetchAll]
    congr 1
    apply List.map_congr_left
    intro mt _
    exact length_findPage L s mt.1 _ _ _ hl
  refine ⟨?_, hlen, ?_, ?_⟩
  · intro m type
    rw [length_findPage L s m _ _ _ hl]
    omega
  · intro hall
    have hm : modelsToSearch (q.userType.getD "all") = some allModels := by
      simp [modelsToSearch, hall]
    obtain ⟨ps, hps, hlen'⟩ := hlen allModels hm
    refine ⟨ps, hps, ?_, ?_⟩
    · rw [hlen']
      simp only [allModels, List.map_cons, List.map_nil, List.sum_cons, List.sum_nil]
      omega
    · intro hbig
      rw [hlen']
      have h1 := hbig (Model.Escort, "escort") (by simp [allModels])
      have h2 := hbig (Model.Masseuse, "masseuse") (by simp [allModels])
      have h3 := hbig (Model.OFModel, "of-model") (by simp [allModels])
      have h4 := hbig (Model.Spa, "spa") (by simp [allModels])
      simp only [allModels, List.map_cons, List.map_nil, List.sum_cons, List.sum_nil]
      simp only at h1 h2 h3 h4
      omega
  · intro m hne hm
    have hms : modelsToSearch (q.userType.getD "all") = some [(m, q.userType.getD "all")] := by
      simp [modelsToSearch, hne, hm]
    obtain ⟨ps, hps, hlen'⟩ := hlen _ hms
    refine ⟨ps, hps, ?_⟩
    rw [hlen']
    simp only [List.map_cons, List.map_nil, List.sum_cons, List.sum_nil]
    omega

/-- Witness for C8: limit 1 on a database with a match in every collection. -/
theorem skip_limit_apply_per_collection_witness :
    0 < ({ limit := 1 } : Query).limit ∧ 1 ≤ ({ limit := 1 } : Query).page
    ∧ (∀ mt ∈ allModels, (({ limit := 1 } : Query).page - 1) * ({ limit := 1 } : Query).limit
          + ({ limit := 1 } : Query).limit
        ≤ countDocuments sampleLib fullStore mt.1 (modelFilter { limit := 1 } mt.2))
    ∧ ∃ ps, (list sampleLib fullStore { limit := 1 }).profiles = some ps
        ∧ ps.length = 4 * ({ limit := 1 } : Query).limit := by
  have h := (skip_limit_apply_per_collection sampleLib fullStore { limit := 1 }
    (by decide) (by decide)).2.2.1 rfl
  obtain ⟨ps, hps, _, hfull⟩ := h
  have hbig : ∀ mt ∈ allModels, (({ limit := 1 } : Query).page - 1) * ({ limit := 1 } : Query).limit
          + ({ limit := 1 } : Query).limit
        ≤ countDocuments sampleLib fullStore mt.1 (modelFilter { limit := 1 } mt.2) := by
    decide
  exact ⟨by decide, by decide, hbig, ps, hps, hfull hbig⟩

theorem length_fetchAllLocation (L : Lib) (s : Store) (f : Filter) (q : Query)
    (models : List (Model × String)) (hl : 0 < q.limit) :
    (fetchAllLocation L s f q models).length
      = (models.map (fun mt =>
          min q.limit (countDocuments L s mt.1 f - (q.page - 1) * q.limit))).sum := by
  have h : (fetchAllLocation L s f q models).length
      = (models.map (fun mt =>
          (findPage L s mt.1 f ((q.page - 1) * q.limit) q.limit).length)).sum := by
    simp [fetchAllLocation, typedProfiles, List.length_flatten, Function.comp_def]
  rw [h]
  congr 1
  apply List.map_congr_left
  intro mt _
  exact length_findPage L s mt.1 f _ _ hl

/-- The shapes `modelsToSearch` can take in the location handlers. -/
theorem modelsToSearch_shapes (userType : String) :
    (userType = "all" ∧ (modelsToSearch userType).getD [] = allModels)
    ∨ (userType ≠ "all" ∧ ∃ m, getModelByType userType = some m
        ∧ (modelsToSearch userType).getD [] = [(m, userType)])
    ∨ (userType ≠ "all" ∧ getModelByType userType = none
        ∧ (modelsToSearch userType).getD [] = []) := by
  by_cases h : userType = "all"
  · left; exact ⟨h, by simp [modelsToSearch, h]⟩
  · right
    cases hm : getModelByType userType with
    | none => right; exact ⟨h, rfl, by simp [modelsToSearch, h, hm]⟩
    | some m => left; exact ⟨h, m, rfl, by simp [modelsToSearch, h, hm]⟩

theorem next_page_skip (page limit : Nat) (hp : 1 ≤ page) :
    (page + 1 - 1) * limit = (page - 1) * limit + limit := by
  obtain ⟨k, rfl⟩ : ∃ k, page = k + 1 := ⟨page - 1, by omega⟩
  simp [Nat.succ_mul]

theorem nextPage_profiles (L : Lib) (s : Store) (county : String)
    (location : Option String) (q : Query) (hl : 0 < q.limit) (hp : 1 ≤ q.page) :
    ∃ next, (listLocation L s county location { q with page := q.page + 1 }).profiles = some next
      ∧ next.length = (((modelsToSearch (q.userType.getD "all")).getD []).map (fun mt =>
          min q.limit (countDocuments L s mt.1 (locationFilter county location q.area)
            - ((q.page - 1) * q.limit + q.limit)))).sum := by
  rcases listLocation_cases L s county location { q with page := q.page + 1 } with
    ⟨h0, _⟩ | ⟨_, hnext, _⟩
  · simp at h0
  · refine ⟨_, hnext, ?_⟩
    rw [length_arraySort]
    have h := length_fetchAllLocation L s (locationFilter county location q.area)
      { q with page := q.page + 1 } ((modelsToSearch (q.userType.getD "all")).getD []) hl
    dsimp only at h
    rw [next_page_skip q.page q.limit hp] at h
    exact h

theorem thisPage_profiles (L : Lib) (s : Store) (county : String)
    (location : Option String) (q : Query) (hl : 0 < q.limit) (hp : 1 ≤ q.page) :
    ∃ pg ps, (listLocation L s county location q).pagination = some pg
      ∧ (listLocation L s county location q).profiles = some ps
      ∧ (pg.hasMore = true ↔ (q.page - 1) * q.limit + ps.length < pg.total)
      ∧ ps.length = (((modelsToSearch (q.userType.getD "all")).getD []).map (fun mt =>
          min q.limit (countDocuments L s mt.1 (locationFilter county location q.area)
            - (q.page - 1) * q.limit))).sum
      ∧ pg.total = (((modelsToSearch (q.userType.getD "all")).getD []).map (fun mt =>
          countDocuments L s mt.1 (locationFilter county location q.area))).sum := by
  rcases listLocation_cases L s county location q with ⟨h0, _⟩ | ⟨_, hps, hpg⟩
  · omega
  · refine ⟨_, _, hpg, hps, by simp, ?_, rfl⟩
    rw [length_arraySort]
    exact length_fetchAllLocation L s _ q _ hl

theorem sum_min_le {α : Type} (c : α → Nat) (l skip : Nat) (ms : List α) :
    (ms.map (fun x => min l (c x - skip))).sum ≤ (ms.map c).sum := by
  induction ms with
  | nil => simp
  | cons a rest ih =>
    simp only [List.map_cons, List.sum_cons]
    omega

theorem count_le_of_sum_le {α : Type} (c : α → Nat) (l skip : Nat) (ms : List α) :
    ∀ B, (ms.map c).sum ≤ B + (ms.map (fun x => min l (c x - skip))).sum →
      ∀ x ∈ ms, c x ≤ B + min l (c x - skip) := by
  induction ms with
  | nil => intro B _ x hx; cases hx
  | cons a rest ih =>
    intro B h x hx
    simp only [List.map_cons, List.sum_cons] at h
    have hrest := sum_min_le c l skip rest
    rcases List.mem_cons.1 hx with rfl | hx
    · omega
    · have := ih (B + min l (c a - skip) - c a) (by omega) x hx
      omega

theorem next_page_empty_of_no_more {α : Type} (c : α → Nat) (l skip : Nat) (ms : List α)
    (h : ¬ skip + (ms.map (fun x => min l (c x - skip))).sum < (ms.map c).sum) :
    (ms.map (fun x => min l (c x - (skip + l)))).sum = 0 := by
  have hall := count_le_of_sum_le c l skip ms skip (by omega)
  apply List.sum_eq_zero
  intro n hn
  obtain ⟨x, hx, rfl⟩ := List.mem_map.1 hn
  have := hall x hx
  omega

theorem location_hasMore_next_page (L : Lib) (s : Store) (county : String)
    (location : Option String) (q : Query) (hl : 0 < q.limit) (hp : 1 ≤ q.page) :
    ∃ pg ps next,
      (listLocation L s county location q).pagination = some pg
      ∧ (listLocation L s county location q).profiles = some ps
      ∧ (listLocation L s county location { q with page := q.page + 1 }).profiles = some next
      ∧ (pg.hasMore = true ↔ (q.page - 1) * q.limit + ps.length < pg.total)
      ∧ (pg.hasMore = false → next = [])
      ∧ (∀ m, q.userType.getD "all" ≠ "all" → getModelByType (q.userType.getD "all") = some m →
          pg.hasMore = true → next ≠ []) := by
  obtain ⟨pg, ps, hpg, hps, hmore, hlen, htot⟩ := thisPage_profiles L s county location q hl hp
  obtain ⟨next, hnext, hnlen⟩ := nextPage_profiles L s county location q hl hp
  refine ⟨pg, ps, next, hpg, hps, hnext, hmore, ?_, ?_⟩
  · intro hfalse
    apply List.eq_nil_of_length_eq_zero
    have hnot : ¬ ((q.page - 1) * q.limit + ps.length < pg.total) := by
      rw [← hmore, hfalse]; simp
    rw [hlen, htot] at hnot
    rw [hnlen]
    exact next_page_empty_of_no_more
      (fun mt : Model × String => countDocuments L s mt.1 (locationFilter county location q.area)) q.limit
      ((q.page - 1) * q.limit) _ hnot
  · intro m hne hm htrue hnil
    have hlt := hmore.1 htrue
    have hzero : next.length = 0 := by rw [hnil]; rfl
    have hms : (modelsToSearch (q.userType.getD "all")).getD [] = [(m, q.userType.getD "all")] := by
      simp [modelsToSearch, hne, hm]
    rw [hlen, htot, hms] at hlt
    rw [hnlen, hms] at hzero
    simp only [List.map_cons, List.map_nil, List.sum_cons, List.sum_nil] at hlt hzero
    generalize countDocuments L s m (locationFilter county location q.area) = c at hlt hzero
    generalize (q.page - 1) * q.limit = skip at hlt hzero
    omega

/-- Claim C15.  In both location listings, for a positive limit and a page of
at least 1, `hasMore` is true exactly when `skip + returned < total` with
`skip = (page - 1) * limit`; when `hasMore` is false the same request for the
next page returns no profiles, for every user type including `all`; and for a
request with a single known user type, `hasMore` true implies that the next
page returns at least one profile. -/
theorem location_hasMore_false_means_last_page (L : Lib) (s : Store) (county location : String)
    (q : Query) (hl : 0 < q.limit) (hp : 1 ≤ q.page) :
    (∃ pg ps next,
      (listByCounty L s county q).pagination = some pg
      ∧ (listByCounty L s county q).profiles = some ps
      ∧ (listByCounty L s county { q with page := q.page + 1 }).profiles = some next
      ∧ (pg.hasMore = true ↔ (q.page - 1) * q.limit + ps.length < pg.total)
      ∧ (pg.hasMore = false → next = [])
      ∧ (∀ m, q.userType.getD "all" ≠ "all" → getModelByType (q.userType.getD "all") = some m →
          pg.hasMore = true → next ≠ []))
    ∧ (∃ pg ps next,
      (listByCountyLocation L s county location q).pagination = some pg
      ∧ (listByCountyLocation L s county location q).profiles = some ps
      ∧ (listByCountyLocation L s county location { q with page := q.page + 1 }).profiles
          = some next
      ∧ (pg.hasMore = true ↔ (q.page - 1) * q.limit + ps.length < pg.total)
      ∧ (pg.hasMore = false → next = [])
      ∧ (∀ m, q.userType.getD "all" ≠ "all" → getModelByType (q.userType.getD "all") = some m →
          pg.hasMore = true → next ≠ [])) :=
  ⟨location_hasMore_next_page L s county none q hl hp,
    location_hasMore_next_page L s county (some location) q hl hp⟩

/-- Witness for C15: two matching escorts with limit 1; page 2 has `hasMore`
false and page 3 is empty, page 1 has `hasMore` true and page 2 is not empty. -/
theorem location_hasMore_false_means_last_page_witness :
    (listByCounty sampleLib tierStore "NAIROBI"
        { page := 2, limit := 1, userType := some "escort" }).pagination
      = some { page := 2, limit := 1, total := 2, hasMore := false }
    ∧ (listByCounty sampleLib tierStore "NAIROBI"
        { page := 3, limit := 1, userType := some "escort" }).profiles = some []
    ∧ (listByCounty sampleLib tierStore "NAIROBI"
        { page := 1, limit := 1, userType := some "escort" }).pagination
      = some { page := 1, limit := 1, total := 2, hasMore := true }
    ∧ (listByCounty sampleLib tierStore "NAIROBI"
        { page := 2, limit := 1, userType := some "escort" }).profiles ≠ some [] := by
  have hpg2 : (listByCounty sampleLib tierStore "NAIROBI"
        { page := 2, limit := 1, userType := some "escort" }).pagination
      = some { page := 2, limit := 1, total := 2, hasMore := false } := by decide
  have hpg1 : (listByCounty sampleLib tierStore "NAIROBI"
        { page := 1, limit := 1, userType := some "escort" }).pagination
      = some { page := 1, limit := 1, total := 2, hasMore := true } := by decide
  obtain ⟨pg, ps, next, h1, _, h3, _, h5, _⟩ :=
    (location_hasMore_false_means_last_page sampleLib tierStore "NAIROBI" "Westlands"
      { page := 2, limit := 1, userType := some "escort" } (by decide) (by decide)).1
  obtain ⟨pg', ps', next', k1, _, k3, _, _, k6⟩ :=
    (location_hasMore_false_means_last_page sampleLib tierStore "NAIROBI" "Westlands"
      { page := 1, limit := 1, userType := some "escort" } (by decide) (by decide)).1
  rw [hpg2] at h1
  cases h1
  rw [hpg1] at k1
  cases k1
  refine ⟨hpg2, ?_, hpg1, ?_⟩
  · rw [← h5 rfl]
    exact h3
  · intro hempty
    have hk : (listByCounty sampleLib tierStore "NAIROBI"
        { page := 2, limit := 1, userType := some "escort" }).profiles = some next' := k3
    rw [hempty] at hk
    cases hk
    exact k6 Model.Escort (by decide) (by decide) rfl rfl

end Profiles

/-! ## Properties of analytics.js -/

namespace Analytics

theorem applyInteraction_spec (t : String) (now : Nat) (a : Analytics)
    (ht : t ∈ validInteractions) :
    (applyInteraction t now a).interactions = a.interactions + 1
    ∧ typeCounter t (applyInteraction t now a) = typeCounter t a + 1
    ∧ (∀ t', t' ≠ t → typeCounter t' (applyInteraction t now a) = typeCounter t' a)
    ∧ (applyInteraction t now a).views = a.views
    ∧ (applyInteraction t now a).lastViewed = a.lastViewed
    ∧ (applyInteraction t now a).interactionHistory
        = a.interactionHistory ++ [{ type := t, timestamp := now }] := by
  simp only [validInteractions, List.mem_cons, List.mem_singleton, List.not_mem_nil, or_false] at ht
  rcases ht with rfl | rfl | rfl | rfl | rfl
  all_goals
    refine ⟨rfl, rfl, ?_, rfl, rfl, rfl⟩
    intro t' hne
    unfold typeCounter
    split <;> first | rfl | (exfalso; exact hne rfl)

theorem updateFirst_split (id : String) (f : Profile → Profile) (l : List Profile) (p : Profile)
    (h : l.find? (fun q => q._id = id) = some p) :
    ∃ pre post, l = pre ++ p :: post ∧ (∀ x ∈ pre, x._id ≠ id) ∧ p._id = id
      ∧ updateFirst id f l = pre ++ f p :: post := by
  induction l with
  | nil => simp at h
  | cons q rest ih =>
    by_cases hq : q._id = id
    · have hp : q = p := by simpa [List.find?, hq] using h
      subst hp
      exact ⟨[], rest, rfl, by simp, hq, by simp [updateFirst, hq]⟩
    · have h' : rest.find? (fun q => q._id = id) = some p := by
        simpa [List.find?, hq] using h
      obtain ⟨pre, post, hl, hpre, hid, hupd⟩ := ih h'
      refine ⟨q :: pre, post, by rw [hl]; rfl, ?_, hid, by simp [updateFirst, hq, hupd]⟩
      intro x hx
      rcases List.mem_cons.1 hx with rfl | hx
      · exact hq
      · exact hpre x hx

theorem find?_updateFirst (id : String) (f : Profile → Profile) (hf : ∀ q, (f q)._id = q._id)
    (l : List Profile) (p : Profile) (h : l.find? (fun q => q._id = id) = some p) :
    (updateFirst id f l).find? (fun q => q._id = id) = some (f p) := by
  induction l with
  | nil => simp at h
  | cons q rest ih =>
    by_cases hq : q._id = id
    · have hp : q = p := by simpa [List.find?, hq] using h
      subst hp
      simp [updateFirst, hq, List.find?, hf]
    · have h' : rest.find? (fun q => q._id = id) = some p := by
        simpa [List.find?, hq] using h
      simp [updateFirst, hq, List.find?, ih h']

theorem coll_setColl_same (s : Store) (m : Model) (l : List Profile) :
    (setColl s m l).coll m = l := by
  cases m <;> rfl

theorem coll_setColl_other (s : Store) (m m' : Model) (l : List Profile) (h : m' ≠ m) :
    (setColl s m l).coll m' = s.coll m' := by
  cases m <;> cases m' <;> first | rfl | exact absurd rfl h

theorem trackAcross_eq (s : Store) (id t : String) (now : Nat) (ms : List (Model × String)) :
    trackAcross s id t now ms
      = (holder s id ms).map (fun mp =>
          setColl s mp.1 (updateFirst id (updateProfile t now) (s.coll mp.1))) := by
  induction ms with
  | nil => rfl
  | cons mt rest ih =>
    obtain ⟨m, ty⟩ := mt
    unfold trackAcross holder
    cases h : findById s m id with
    | none => simp only [ih]
    | some p => rfl

/-- After the update the same collection is the first holder, with the
updated document. -/
theorem holder_after_update (s : Store) (id : String) (f : Profile → Profile)
    (hf : ∀ q, (f q)._id = q._id) (m : Model) (p : Profile)
    (h : holder s id models = some (m, p)) :
    holder (setColl s m (updateFirst id f (s.coll m))) id models = some (m, f p) := by
  simp only [holder, models, findById] at h ⊢
  cases h1 : s.escorts.find? (fun q => q._id = id) with
  | some p1 =>
    simp only [Store.coll, h1] at h
    cases h
    have := find?_updateFirst id f hf s.escorts _ h1
    simp [setColl, Store.coll, this]
  | none =>
    simp only [Store.coll, h1] at h
    cases h2 : s.masseuses.find? (fun q => q._id = id) with
    | some p2 =>
      simp only [h2] at h
      cases h
      have := find?_updateFirst id f hf s.masseuses _ h2
      simp [setColl, Store.coll, this, h1]
    | none =>
      simp only [h2] at h
      cases h3 : s.ofModels.find? (fun q => q._id = id) with
      | some p3 =>
        simp only [h3] at h
        cases h
        have := find?_updateFirst id f hf s.ofModels _ h3
        simp [setColl, Store.coll, this, h1, h2]
      | none =>
        simp only [h3] at h
        cases h4 : s.spas.find? (fun q => q._id = id) with
        | some p4 =>
          simp only [h4] at h
          cases h
          have := find?_updateFirst id f hf s.spas _ h4
          simp [setColl, Store.coll, this, h1, h2, h3]
        | none =>
          simp only [h4] at h
          cases h

theorem holder_find (s : Store) (id : String) (ms : List (Model × String)) (m : Model)
    (p : Profile) (h : holder s id ms = some (m, p)) :
    (s.coll m).find? (fun q => q._id = id) = some p := by
  induction ms with
  | nil => cases h
  | cons mt rest ih =>
    obtain ⟨m0, ty⟩ := mt
    unfold holder at h
    cases h0 : findById s m0 id with
    | none =>
      rw [h0] at h
      exact ih h
    | some p0 =>
      rw [h0] at h
      cases h
      exact h0

theorem not_mem_validInteractions_empty : ¬ "" ∈ validInteractions := by decide

/-- The outcome of a request that passes the validation. -/
theorem trackInteraction_valid (L : Lib) (now : Nat) (s : Store) (req : InteractionRequest)
    (ht : req.interactionType ∈ validInteractions) (hid : req.profileId ≠ "")
    (hc : L.castObjectId req.profileId = true) :
    trackInteraction L now s req =
      match holder s req.profileId models with
      | none => ({ status := 404, success := false, message := "Profile not found" }, s)
      | some (m, _) =>
        ({ status := 200, success := true, message := "Interaction tracked successfully" },
          setColl s m
            (updateFirst req.profileId (updateProfile req.interactionType now) (s.coll m))) := by
  have hty : req.interactionType ≠ "" := by
    intro h0
    rw [h0] at ht
    exact not_mem_validInteractions_empty ht
  unfold trackInteraction
  rw [if_neg (by simp [hid, hty]), if_neg (by simpa using ht), trackAcross_eq]
  simp only [hc, Bool.not_true, Bool.false_eq_true, if_false]
  cases holder s req.profileId models with
  | none => rfl
  | some mp => rfl

theorem updateProfile_id (t : String) (now : Nat) (q : Profile) :
    (updateProfile t now q)._id = q._id := rfl

/-- Repeated requests keep the first holder and add one to both counters and
to the history per request. -/
theorem trackRepeated_counts (L : Lib) (req : InteractionRequest)
    (ht : req.interactionType ∈ validInteractions) (hid : req.profileId ≠ "")
    (hc : L.castObjectId req.profileId = true) (m : Model) (times : List Nat) :
    ∀ (s : Store) (p : Profile), holder s req.profileId models = some (m, p) →
      ∃ p', holder (trackRepeated L s req times) req.profileId models = some (m, p')
        ∧ (p'.analytics.getD {}).interactions
            = (p.analytics.getD {}).interactions + times.length
        ∧ typeCounter req.interactionType (p'.analytics.getD {})
            = typeCounter req.interactionType (p.analytics.getD {}) + times.length
        ∧ (p'.analytics.getD {}).interactionHistory.length
            = (p.analytics.getD {}).interactionHistory.length + times.length := by
  induction times with
  | nil => intro s p h; exact ⟨p, h, rfl, rfl, rfl⟩
  | cons now later ih =>
    intro s p h
    have hstep : (trackInteraction L now s req).2
        = setColl s m
            (updateFirst req.profileId (updateProfile req.interactionType now) (s.coll m)) := by
      rw [trackInteraction_valid L now s req ht hid hc, h]
    have hnext := holder_after_update s req.profileId (updateProfile req.interactionType now)
      (updateProfile_id req.interactionType now) m p h
    rw [← hstep] at hnext
    obtain ⟨p', hp', h1, h2, h3⟩ := ih _ _ hnext
    obtain ⟨a1, a2, _, _, _, a6⟩ :=
      applyInteraction_spec req.interactionType now (p.analytics.getD {}) ht
    refine ⟨p', hp', ?_, ?_, ?_⟩
    · rw [h1]
      simp only [updateProfile, Option.getD_some, a1, List.length_cons]
      omega
    · rw [h2]
      simp only [updateProfile, Option.getD_some, a2, List.length_cons]
      omega
    · rw [h3]
      simp only [updateProfile, Option.getD_some, a6, List.length_cons, List.length_append,
        List.length_nil]
      omega

/-- Claim C11.  For a valid interaction type and a castable, non-empty id held
by some collection, the request is answered 200; in the first collection that
holds the id, in fixed order, the first document with that id has its
`analytics` replaced and every other document, and every other collection, is
left as it was.  In the new `analytics`, `interactions` and the counter of the
type are one higher, the counters of the other types, `views` and
`lastViewed` are unchanged, and one entry of that type is appended to the
history.  Hence, starting from counters 0 and an empty history, one request
per timestamp of a list of length `n` yields `interactions = n`, type counter
`n` (`calls = n` for type `call`) and a history of length `n`. -/
theorem interaction_increments_first_holder (L : Lib) (now : Nat) (s : Store)
    (req : InteractionRequest) (m : Model) (p : Profile)
    (ht : req.interactionType ∈ validInteractions) (hid : req.profileId ≠ "")
    (hc : L.castObjectId req.profileId = true)
    (hh : holder s req.profileId models = some (m, p)) :
    (trackInteraction L now s req).1.status = 200
    ∧ (∃ pre post, s.coll m = pre ++ p :: post ∧ (∀ x ∈ pre, x._id ≠ req.profileId)
        ∧ (trackInteraction L now s req).2.coll m
          = pre ++
              { p with
                analytics :=
                  some (applyInteraction req.interactionType now (p.analytics.getD {})) }
              :: post)
    ∧ (∀ m', m' ≠ m → (trackInteraction L now s req).2.coll m' = s.coll m')
    ∧ (applyInteraction req.interactionType now (p.analytics.getD {})).interactions
        = (p.analytics.getD {}).interactions + 1
    ∧ typeCounter req.interactionType
          (applyInteraction req.interactionType now (p.analytics.getD {}))
        = typeCounter req.interactionType (p.analytics.getD {}) + 1
    ∧ (∀ t', t' ≠ req.interactionType →
        typeCounter t' (applyInteraction req.interactionType now (p.analytics.getD {}))
          = typeCounter t' (p.analytics.getD {}))
    ∧ (applyInteraction req.interactionType now (p.analytics.getD {})).views
        = (p.analytics.getD {}).views
    ∧ (applyInteraction req.interactionType now (p.analytics.getD {})).lastViewed
        = (p.analytics.getD {}).lastViewed
    ∧ (applyInteraction req.interactionType now (p.analytics.getD {})).interactionHistory
        = (p.analytics.getD {}).interactionHistory
            ++ [{ type := req.interactionType, timestamp := now }]
    ∧ (∀ times : List Nat, (p.analytics.getD {}).interactions = 0 →
        typeCounter req.interactionType (p.analytics.getD {}) = 0 →
        (p.analytics.getD {}).interactionHistory = [] →
        ∃ p', holder (trackRepeated L s req times) req.profileId models = some (m, p')
          ∧ (p'.analytics.getD {}).interactions = times.length
          ∧ typeCounter req.interactionType (p'.analytics.getD {}) = times.length
          ∧ (req.interactionType = "call" → (p'.analytics.getD {}).calls = times.length)
          ∧ (p'.analytics.getD {}).interactionHistory.length = times.length) := by
  have hstep : trackInteraction L now s req
      = ({ status := 200, success := true, message := "Interaction tracked successfully" },
          setColl s m
            (updateFirst req.profileId (updateProfile req.interactionType now) (s.coll m))) := by
    rw [trackInteraction_valid L now s req ht hid hc, hh]
  obtain ⟨a1, a2, a3, a4, a5, a6⟩ :=
    applyInteraction_spec req.interactionType now (p.analytics.getD {}) ht
  refine ⟨by rw [hstep], ?_, ?_, a1, a2, a3, a4, a5, a6, ?_⟩
  · obtain ⟨pre, post, hl, hpre, _, hupd⟩ :=
      updateFirst_split req.profileId (updateProfile req.interactionType now) (s.coll m) p
        (holder_find s req.profileId models m p hh)
    refine ⟨pre, post, hl, hpre, ?_⟩
    rw [hstep]
    simp only [coll_setColl_same, hupd]
    rfl
  · intro m' hne
    rw [hstep]
    exact coll_setColl_other s m m' _ hne
  · intro times h1 h2 h3
    obtain ⟨p', hp', c1, c2, c3⟩ := trackRepeated_counts L req ht hid hc m times s p hh
    refine ⟨p', hp', by omega, by omega, ?_, by rw [c3, h3]; simp⟩
    intro hcall
    rw [hcall] at c2 h2
    have e1 : typeCounter "call" (p'.analytics.getD {}) = (p'.analytics.getD {}).calls := rfl
    rw [← e1, c2, h2]
    omega

/-- Witness for C11: five `call` requests on a profile of the sample database
give `interactions = 5`, `calls = 5` and five history entries. -/
theorem interaction_increments_first_holder_witness :
    holder trackStore "k1" models = some (Model.Masseuse, docKai)
    ∧ (trackInteraction sampleLib 100 trackStore
        { profileId := "k1", interactionType := "call" }).1.status = 200
    ∧ ∃ p', holder (trackRepeated sampleLib trackStore
          { profileId := "k1", interactionType := "call" } [1, 2, 3, 4, 5]) "k1" models
        = some (Model.Masseuse, p')
      ∧ (p'.analytics.getD {}).interactions = 5
      ∧ (p'.analytics.getD {}).calls = 5
      ∧ (p'.analytics.getD {}).interactionHistory.length = 5 := by
  have h := interaction_increments_first_holder sampleLib 100 trackStore
    { profileId := "k1", interactionType := "call" } Model.Masseuse docKai
    (by decide) (by decide) (by decide) (by decide)
  obtain ⟨p', hp', h1, _, h3, h4⟩ :=
    h.2.2.2.2.2.2.2.2.2 [1, 2, 3, 4, 5] (by decide) (by decide) (by decide)
  exact ⟨by decide, h.1, p', hp', h1, h3 rfl, h4⟩

/-- Claim C12.  A request whose interaction type is not one of the five valid
types is answered 400 and leaves the database unchanged; the response is the
same for every database, so it does not depend on whether the profile id
exists, also when the id is missing. -/
theorem invalid_interaction_type_is_400 (L : Lib) (now : Nat) (s : Store)
    (req : InteractionRequest) (h : ¬ req.interactionType ∈ validInteractions) :
    (trackInteraction L now s req).1.status = 400
    ∧ (trackInteraction L now s req).1.success = false
    ∧ (trackInteraction L now s req).2 = s
    ∧ (∀ (L' : Lib) (now' : Nat) (s' : Store),
        (trackInteraction L' now' s' req).1 = (trackInteraction L now s req).1) := by
  have key : ∀ (L' : Lib) (now' : Nat) (s' : Store),
      trackInteraction L' now' s' req =
        (if req.profileId = "" ∨ req.interactionType = "" then
          { status := 400, success := false,
            message := "Profile ID and interaction type are required" }
        else { status := 400, success := false, message := "Invalid interaction type" }, s') := by
    intro L' now' s'
    unfold trackInteraction
    by_cases h0 : req.profileId = "" ∨ req.interactionType = ""
    · rw [if_pos h0, if_pos h0]
    · rw [if_neg h0, if_neg h0, if_pos h]
  refine ⟨?_, ?_, ?_, ?_⟩
  · rw [key]; split <;> rfl
  · rw [key]; split <;> rfl
  · rw [key]
  · intro L' now' s'
    rw [key, key]

/-- Witness for C12: type `view` on an existing profile and with a missing id. -/
theorem invalid_interaction_type_is_400_witness :
    ¬ ({ profileId := "k1", interactionType := "view" } : InteractionRequest).interactionType
        ∈ validInteractions
    ∧ (findById trackStore Model.Masseuse "k1").isSome = true
    ∧ (trackInteraction sampleLib 100 trackStore
        { profileId := "k1", interactionType := "view" }).1.status = 400
    ∧ (trackInteraction sampleLib 100 trackStore
        { profileId := "k1", interactionType := "view" }).2 = trackStore
    ∧ (trackInteraction sampleLib 100 trackStore
        { profileId := "", interactionType := "view" }).1.status = 400 :=
  have h := invalid_interaction_type_is_400 sampleLib 100 trackStore
    { profileId := "k1", interactionType := "view" } (by decide)
  have h' := invalid_interaction_type_is_400 sampleLib 100 trackStore
    { profileId := "", interactionType := "view" } (by decide)
  ⟨by decide, by decide, h.1, h.2.2.1, h'.1⟩

/-- Counterexample for C13: two databases that differ in the username of the
profile only give the same 200 response, so its data does not carry the
username; and an id that does not cast, held by no collection, is answered
500, not 404. -/
theorem analytics_response_without_username :
    getProfileAnalytics sampleLib nestedPathSchema { escorts := [docKai] } "k1"
        = { status := 200, success := true, data := some { views := 7 } }
    ∧ getProfileAnalytics sampleLib nestedPathSchema
          { escorts := [{ docKai with username := "kim" }] } "k1"
        = getProfileAnalytics sampleLib nestedPathSchema { escorts := [docKai] } "k1"
    ∧ ({ docKai with username := "kim" } : Profile).username ≠ docKai.username
    ∧ firstProfile trackStore "k!" models = none
    ∧ (getProfileAnalytics sampleLib nestedPathSchema trackStore "k!").status = 500 := by
  decide

/-- Claim C13, amended.  The four collections are probed in the order escort,
masseuse, of-model, spa and the first document found is taken.  For an id
that casts: when the `analytics` of that document is present the response is
200 and its data is that value, the stored sub-document when the document
stores one, without the username; when no collection holds the id the
response is 404; and under a schema that yields an `analytics` value for
every document the response is 404 exactly when no collection holds the id.
For an id that does not cast the response is 500. -/
theorem analytics_read_first_holder (L : Lib) (S : Schema) (s : Store) (profileId : String)
    (hstored : ∀ p a, p.analytics = some a → S.analyticsOf p = some a) :
    (firstProfile s profileId models =
      match findById s Model.Escort profileId, findById s Model.Masseuse profileId,
        findById s Model.OFModel profileId, findById s Model.Spa profileId with
      | some p, _, _, _ => some p
      | none, some p, _, _ => some p
      | none, none, some p, _ => some p
      | none, none, none, some p => some p
      | none, none, none, none => none)
    ∧ (L.castObjectId profileId = false →
        getProfileAnalytics L S s profileId
          = { status := 500, success := false, message := some "Failed to fetch analytics" })
    ∧ (L.castObjectId profileId = true →
        (∀ p a, firstProfile s profileId models = some p → S.analyticsOf p = some a →
          getProfileAnalytics L S s profileId
            = { status := 200, success := true, data := some a })
        ∧ (∀ p a, firstProfile s profileId models = some p → p.analytics = some a →
          getProfileAnalytics L S s profileId
            = { status := 200, success := true, data := some a })
        ∧ (firstProfile s profileId models = none →
          getProfileAnalytics L S s profileId
            = { status := 404, success := false, message := some "Analytics not found" })
        ∧ ((∀ p, (S.analyticsOf p).isSome = true) →
          ((getProfileAnalytics L S s profileId).status = 404 ↔
            firstProfile s profileId models = none))) := by
  refine ⟨?_, ?_, ?_⟩
  · simp only [firstProfile, models]
    cases findById s Model.Escort profileId <;> cases findById s Model.Masseuse profileId
      <;> cases findById s Model.OFModel profileId <;> cases findById s Model.Spa profileId
      <;> rfl
  · intro hc
    unfold getProfileAnalytics
    simp [hc]
  · intro hc
    have h1 : ∀ p a, firstProfile s profileId models = some p → S.analyticsOf p = some a →
        getProfileAnalytics L S s profileId
          = { status := 200, success := true, data := some a } := by
      intro p a hp ha
      unfold getProfileAnalytics
      simp [hc, hp, ha]
    have h3 : firstProfile s profileId models = none →
        getProfileAnalytics L S s profileId
          = { status := 404, success := false, message := some "Analytics not found" } := by
      intro hp
      unfold getProfileAnalytics
      simp [hc, hp]
    refine ⟨h1, fun p a hp ha => h1 p a hp (hstored p a ha), h3, ?_⟩
    intro hall
    cases hf : firstProfile s profileId models with
    | none => simp [h3 hf]
    | some p =>
      cases ha : S.analyticsOf p with
      | none =>
        have := hall p
        rw [ha] at this
        exact Bool.noConfusion this
      | some a =>
        rw [h1 p a hf ha]
        simp

/-- Witness for C13 amended: reading the analytics of a profile of the sample
database under the nested-path schema. -/
theorem analytics_read_first_holder_witness :
    (∀ p a, p.analytics = some a → nestedPathSchema.analyticsOf p = some a)
    ∧ sampleLib.castObjectId "k1" = true
    ∧ firstProfile trackStore "k1" models = some docKai
    ∧ getProfileAnalytics sampleLib nestedPathSchema trackStore "k1"
        = { status := 200, success := true, data := some { views := 7 } }
    ∧ ((getProfileAnalytics sampleLib nestedPathSchema trackStore "zz").status = 404
        ↔ firstProfile trackStore "zz" models = none) := by
  have hstored : ∀ p a, p.analytics = some a → nestedPathSchema.analyticsOf p = some a := by
    intro p a h
    simp [nestedPathSchema, h]
  have h := analytics_read_first_holder sampleLib nestedPathSchema trackStore "k1" hstored
  have hz := analytics_read_first_holder sampleLib nestedPathSchema trackStore "zz" hstored
  exact ⟨hstored, by decide, by decide,
    (h.2.2 (by decide)).2.1 docKai { views := 7 } (by decide) (by decide),
    (hz.2.2 (by decide)).2.2.2 (fun p => rfl)⟩

end Analytics

/-! ## The three copies of getModelByType -/

/-- Claim C14.  `getModelByType` is total: on a string or `undefined` it
returns the Escort, Masseuse, OFModel and Spa accessors for `escort`,
`masseuse`, `of-model` and `spa`, four distinct accessors, and null for every
other argument, among them `all`, the empty string, tags in another letter
case and `undefined`; the copies in auth.js, profiles.js and analytics.js
return the same result on every argument. -/
theorem getModelByType_total_and_copies_agree :
    (∀ v : Option String,
      Auth.getModelByTypeOf v =
        (if v = some "escort" then some Model.Escort
         else if v = some "masseuse" then some Model.Masseuse
         else if v = some "of-model" then some Model.OFModel
         else if v = some "spa" then some Model.Spa
         else none)
      ∧ Profiles.getModelByTypeOf v = Auth.getModelByTypeOf v
      ∧ Analytics.getModelByTypeOf v = Auth.getModelByTypeOf v)
    ∧ (∀ t : String,
        Auth.getModelByType t = Auth.getModelByTypeOf (some t)
        ∧ Profiles.getModelByType t = Auth.getModelByType t
        ∧ Analytics.getModelByType t = Auth.getModelByType t)
    ∧ [Model.Escort, Model.Masseuse, Model.OFModel, Model.Spa].Nodup
    ∧ Auth.getModelByTypeOf (some "all") = none
    ∧ Auth.getModelByTypeOf (some "") = none
    ∧ Auth.getModelByTypeOf (some "Escort") = none
    ∧ Auth.getModelByTypeOf (some "SPA") = none
    ∧ Auth.getModelByTypeOf none = none := by
  refine ⟨?_, ?_, by decide, by decide, by decide, by decide, by decide, rfl⟩
  · intro v
    refine ⟨?_, ?_, ?_⟩
    · unfold Auth.getModelByTypeOf
      split <;> simp_all
    · unfold Profiles.getModelByTypeOf Auth.getModelByTypeOf
      rfl
    · unfold Analytics.getModelByTypeOf Auth.getModelByTypeOf
      rfl
  · intro t
    refine ⟨?_, ?_, ?_⟩
    · unfold Auth.getModelByType Auth.getModelByTypeOf
      split <;> simp_all
    · unfold Profiles.getModelByType Auth.getModelByType
      rfl
    · unfold Analytics.getModelByType Auth.getModelByType
      rfl

end Alchemyst
